import Mathlib

/-!
Operator version gate (`pkg/patterns/addon/pkg/status/version.go`)

A shallow embedding of `NewVersionCheck` and `versionCheck.VersionCheck`, together with the
part of the semantic-version value type (`semver.Version`: parsing, precedence, rendering)
that the gate calls.  Go strings are Lean strings, `uint64` fields are natural numbers that
the parser keeps below `2^64`, Go's `(value, error)` results are `Except`, and the effect of
`VersionCheck` on its reconciliation target is returned as the target after the call.
Logging is not modelled.
-/

namespace strconv

/-- Modelled from the spec: the failure of reading an unsigned decimal number, which the
semantic-version parser of section 3 passes on.  The number reader itself is not under
`src/`; `ErrBadDigits` is its "invalid syntax" failure and `ErrRange` its "value out of
range" failure, each carrying the text that was being read. -/
inductive NumError where
  | ErrBadDigits (num : String)
  | ErrRange (num : String)
deriving DecidableEq

/-- Modelled from the spec: the largest value of a 64-bit unsigned version component. -/
def maxVal : Nat := 2 ^ 64 - 1

/-- Modelled from the spec: the digit-by-digit loop of the unsigned decimal reader (base 10,
64 bits), not under `src/`.  `s0` is the whole text (for the error), `n` the value read so
far.  A character that is not a decimal digit is a syntax failure; a value that leaves the
64-bit range is a range failure. -/
def parseUintLoop (s0 : String) : List Char → Nat → Except NumError Nat
  | [], n => .ok n
  | c :: cs, n =>
    if '0' ≤ c ∧ c ≤ '9' then
      let d := c.toNat - '0'.toNat
      if n ≥ maxVal / 10 + 1 then .error (.ErrRange s0)
      else
        let n10 := (n * 10) % 2 ^ 64
        let n1 := (n10 + d) % 2 ^ 64
        if n1 < n10 ∨ n1 > maxVal then .error (.ErrRange s0)
        else parseUintLoop s0 cs n1
    else .error (.ErrBadDigits s0)

/-- Modelled from the spec: reading an unsigned 64-bit decimal number (the reader is not
under `src/`); the empty text is a syntax failure. -/
def ParseUint (s : List Char) : Except NumError Nat :=
  if s = [] then .error (.ErrBadDigits (String.mk s))
  else parseUintLoop (String.mk s) s 0

/-- Modelled from the spec: the sixteen digits of the escapes of a quoted text. -/
def lowerhex : List Char := "0123456789abcdef".toList

/-- Modelled from the spec: the `width` lowest hexadecimal digits of `n`, highest first. -/
def hexDigits : Nat → Nat → List Char
  | 0, _ => []
  | width + 1, n => hexDigits width (n / 16) ++ [lowerhex.getD (n % 16) '0']

/-- Modelled from the spec: whether a character is written as it is inside a quoted text.
Up to U+00FF the rule is fixed: the ASCII characters from the blank to `~`, and the
characters from U+00A1 on except the soft hyphen U+00AD.  Above U+00FF the answer comes
from the character tables of the formatting library, which are not under `src/` and are
the parameter `wide`. -/
def IsPrint (wide : Char → Bool) (r : Char) : Bool :=
  if r.toNat ≤ 0xFF then
    if 0x20 ≤ r.toNat ∧ r.toNat < 0x7F then true
    else if 0xA1 ≤ r.toNat then decide (r.toNat ≠ 0xAD)
    else false
  else wide r

/-- Modelled from the spec: how one character of "the offending string" appears inside the
quoted text of the wrapped parse error (section 4.1); the quoting routine (the verb `%q`)
is not under `src/`.  The double quote and the backslash get a backslash in front, a
printable character stands for itself, and every other character becomes an escape. -/
def appendEscapedRune (wide : Char → Bool) (r : Char) : List Char :=
  if r = '"' ∨ r = '\\' then ['\\', r]
  else if IsPrint wide r then [r]
  else if r = '\x07' then ['\\', 'a']
  else if r = '\x08' then ['\\', 'b']
  else if r = '\x0c' then ['\\', 'f']
  else if r = '\n' then ['\\', 'n']
  else if r = '\r' then ['\\', 'r']
  else if r = '\t' then ['\\', 't']
  else if r = '\x0b' then ['\\', 'v']
  else if r.toNat < 0x20 ∨ r.toNat = 0x7F then '\\' :: 'x' :: hexDigits 2 r.toNat
  else if r.toNat < 0x10000 then '\\' :: 'u' :: hexDigits 4 r.toNat
  else '\\' :: 'U' :: hexDigits 8 r.toNat

/-- Modelled from the spec: the characters of a text, each as it appears inside the
quoted text. -/
def quoteRunes (wide : Char → Bool) : List Char → List Char
  | [] => []
  | r :: rs => appendEscapedRune wide r ++ quoteRunes wide rs

/-- Modelled from the spec: the quoted form of a text (the verb `%q`, not under `src/`):
a double quote, the characters of the text with their escapes, a double quote. -/
def Quote (wide : Char → Bool) (s : String) : String :=
  String.mk ('"' :: (quoteRunes wide s.toList ++ ['"']))

/-- Modelled from the spec: the text of a failure of reading a number, which names the
reader, the quoted text that was read and the kind of failure. -/
def NumError.Error (wide : Char → Bool) : NumError → String
  | .ErrBadDigits num => "strconv.ParseUint: parsing " ++ Quote wide num ++ ": invalid syntax"
  | .ErrRange num => "strconv.ParseUint: parsing " ++ Quote wide num ++ ": value out of range"

end strconv

namespace semver

/-- Modelled from the spec: one dot-separated identifier of the pre-release part of a
SemanticVersion (section 3).  The version library is not under `src/`; an identifier is
either numeric (`IsNum`, value in `VersionNum`) or alphanumeric (text in `VersionStr`). -/
structure PRVersion where
  VersionStr : String
  VersionNum : Nat
  IsNum : Bool
deriving DecidableEq

/-- Modelled from the spec: SemanticVersion (section 3), "ordered components (major, minor,
patch, optional pre-release/build metadata)".  The version library is not under `src/`.
The value with every field empty is the zero version `0.0.0`. -/
structure Version where
  Major : Nat
  Minor : Nat
  Patch : Nat
  Pre : List PRVersion
  Build : List String
deriving DecidableEq

/-- Modelled from the spec: "the zero version (0.0.0)" of section 4.1, the value of a
version variable that was declared and never assigned. -/
def Version.zero : Version :=
  { Major := 0, Minor := 0, Patch := 0, Pre := [], Build := [] }

/-- Modelled from the spec: the ways in which a text can fail to be a SemanticVersion
("ParseError", section 7), one constructor per check of the parser; the parser is not
under `src/`. -/
inductive ParseError where
  | versionStringEmpty
  | noMajorMinorPatch
  | invalidMajor (part : String)
  | majorLeadingZeroes (part : String)
  | invalidMinor (part : String)
  | minorLeadingZeroes (part : String)
  | invalidPatch (part : String)
  | patchLeadingZeroes (part : String)
  | number (e : strconv.NumError)
  | prereleaseEmpty
  | prereleaseLeadingZeroes (part : String)
  | invalidPrerelease (part : String)
  | buildEmpty
  | invalidBuild (part : String)
deriving DecidableEq

/-- Modelled from the spec: the text of a "ParseError" (section 7), one message per check
of the parser, the messages that show a piece of the input showing it quoted; the parser
and its messages are not under `src/`. -/
def ParseError.Error (wide : Char → Bool) : ParseError → String
  | .versionStringEmpty => "Version string empty"
  | .noMajorMinorPatch => "No Major.Minor.Patch elements found"
  | .invalidMajor part =>
    "Invalid character(s) found in major number " ++ strconv.Quote wide part
  | .majorLeadingZeroes part =>
    "Major number must not contain leading zeroes " ++ strconv.Quote wide part
  | .invalidMinor part =>
    "Invalid character(s) found in minor number " ++ strconv.Quote wide part
  | .minorLeadingZeroes part =>
    "Minor number must not contain leading zeroes " ++ strconv.Quote wide part
  | .invalidPatch part =>
    "Invalid character(s) found in patch number " ++ strconv.Quote wide part
  | .patchLeadingZeroes part =>
    "Patch number must not contain leading zeroes " ++ strconv.Quote wide part
  | .number e => e.Error wide
  | .prereleaseEmpty => "Prerelease is empty"
  | .prereleaseLeadingZeroes part =>
    "Numeric PreRelease version must not contain leading zeroes " ++ strconv.Quote wide part
  | .invalidPrerelease part =>
    "Invalid character(s) found in prerelease " ++ strconv.Quote wide part
  | .buildEmpty => "Build meta data is empty"
  | .invalidBuild part =>
    "Invalid character(s) found in build meta data " ++ strconv.Quote wide part

/-- Modelled from the spec: the digits allowed in a numeric component. -/
def numbers : List Char := "0123456789".toList

/-- Modelled from the spec: the letters (and the hyphen) allowed in an identifier. -/
def alphas : List Char := "abcdefghijklmnopqrstuvwxyzABCDEFGHIJKLMNOPQRSTUVWXYZ-".toList

/-- Modelled from the spec: the characters allowed in an alphanumeric identifier. -/
def alphanum : List Char := alphas ++ numbers

/-- Modelled from the spec: whether every character of `s` is one of `set`. -/
def containsOnly (s : List Char) (set : List Char) : Bool :=
  s.all (fun r => set.contains r)

/-- Modelled from the spec: whether a numeric text has more than one character and starts
with `0`. -/
def hasLeadingZeroes (s : List Char) : Bool :=
  decide (s.length > 1) && s.head? == some '0'

/-- Modelled from the spec: the text before and the text after the first `sep` in a text,
if there is one. -/
def cut (sep : Char) : List Char → Option (List Char × List Char)
  | [] => none
  | c :: cs =>
    if c = sep then some ([], cs)
    else
      match cut sep cs with
      | none => none
      | some (a, b) => some (c :: a, b)

/-- Modelled from the spec: splitting a text at every `sep`; a text without `sep` (also the
empty text) gives one piece. -/
def split (sep : Char) : List Char → List (List Char)
  | [] => [[]]
  | c :: cs =>
    if c = sep then [] :: split sep cs
    else
      match split sep cs with
      | [] => [[c]]
      | p :: ps => (c :: p) :: ps

/-- Modelled from the spec: splitting a text at its first two dots, into at most three
pieces (`major`, `minor` and the rest). -/
def splitN3 (s : List Char) : List (List Char) :=
  match cut '.' s with
  | none => [s]
  | some (a, r) =>
    match cut '.' r with
    | none => [a, r]
    | some (b, c) => [a, b, c]

/-- Modelled from the spec: reading one pre-release identifier. -/
def NewPRVersion (s : List Char) : Except ParseError PRVersion :=
  if s.length = 0 then .error .prereleaseEmpty
  else if containsOnly s numbers then
    if hasLeadingZeroes s then .error (.prereleaseLeadingZeroes (String.mk s))
    else
      match strconv.ParseUint s with
      | .error e => .error (.number e)
      | .ok num => .ok { VersionStr := "", VersionNum := num, IsNum := true }
  else if containsOnly s alphanum then
    .ok { VersionStr := String.mk s, VersionNum := 0, IsNum := false }
  else .error (.invalidPrerelease (String.mk s))

/-- Modelled from the spec: reading the pre-release identifiers in order, stopping at the
first that fails. -/
def parsePrerelease : List (List Char) → Except ParseError (List PRVersion)
  | [] => .ok []
  | prstr :: rest =>
    match NewPRVersion prstr with
    | .error e => .error e
    | .ok parsedPR =>
      match parsePrerelease rest with
      | .error e => .error e
      | .ok prs => .ok (parsedPR :: prs)

/-- Modelled from the spec: reading the build-metadata identifiers in order, stopping at
the first that fails. -/
def parseBuild : List (List Char) → Except ParseError (List String)
  | [] => .ok []
  | str :: rest =>
    if str.length = 0 then .error .buildEmpty
    else if !containsOnly str alphanum then .error (.invalidBuild (String.mk str))
    else
      match parseBuild rest with
      | .error e => .error e
      | .ok bs => .ok (String.mk str :: bs)

/-- Modelled from the spec: one numeric component (`major`, `minor` or `patch`): digits
only, no leading zero, within 64 bits. -/
def parseComponent (part : List Char) (invalid leading : String → ParseError) :
    Except ParseError Nat :=
  if !containsOnly part numbers then .error (invalid (String.mk part))
  else if hasLeadingZeroes part then .error (leading (String.mk part))
  else
    match strconv.ParseUint part with
    | .error e => .error (.number e)
    | .ok n => .ok n

/-- Modelled from the spec: "parse-from-string" of SemanticVersion (section 3); the parser
is not under `src/`.  The text is `major.minor.patch`, then optionally `-` and pre-release
identifiers, then optionally `+` and build-metadata identifiers. -/
def Parse (s : String) : Except ParseError Version :=
  if s.toList.length = 0 then .error .versionStringEmpty
  else
    match splitN3 s.toList with
    | [p0, p1, p2] =>
      match parseComponent p0 .invalidMajor .majorLeadingZeroes with
      | .error e => .error e
      | .ok major =>
        match parseComponent p1 .invalidMinor .minorLeadingZeroes with
        | .error e => .error e
        | .ok minor =>
          let (patchStr1, build) :=
            match cut '+' p2 with
            | some (a, b) => (a, split '.' b)
            | none => (p2, [])
          let (patchStr, prerelease) :=
            match cut '-' patchStr1 with
            | some (a, b) => (a, split '.' b)
            | none => (patchStr1, [])
          match parseComponent patchStr .invalidPatch .patchLeadingZeroes with
          | .error e => .error e
          | .ok patch =>
            match parsePrerelease prerelease with
            | .error e => .error e
            | .ok pre =>
              match parseBuild build with
              | .error e => .error e
              | .ok bld =>
                .ok { Major := major, Minor := minor, Patch := patch, Pre := pre, Build := bld }
    | _ => .error .noMajorMinorPatch

/-- Modelled from the spec: the precedence of two pre-release identifiers, as `-1`, `0` or
`1`: a numeric identifier is below an alphanumeric one, numeric ones compare by value,
alphanumeric ones by their text (character by character). -/
def PRVersion.Compare (v o : PRVersion) : Int :=
  if v.IsNum ∧ ¬ o.IsNum then -1
  else if ¬ v.IsNum ∧ o.IsNum then 1
  else if v.IsNum ∧ o.IsNum then
    if v.VersionNum = o.VersionNum then 0
    else if v.VersionNum > o.VersionNum then 1
    else -1
  else
    if v.VersionStr = o.VersionStr then 0
    else if o.VersionStr.toList < v.VersionStr.toList then 1
    else -1

/-- Modelled from the spec: the identifier-by-identifier loop over two pre-release lists,
and the rule after it: when one list is a proper start of the other, the longer one is
greater. -/
def comparePre : List PRVersion → List PRVersion → Int
  | [], [] => 0
  | [], _ :: _ => -1
  | _ :: _, [] => 1
  | a :: as, b :: bs =>
    let comp := a.Compare b
    if comp = 0 then comparePre as bs
    else if comp = 1 then 1
    else -1

/-- Modelled from the spec: the "total ordering" of SemanticVersion (section 3), as `-1`,
`0` or `1` for `v` below, equal to or above `o`.  Major, minor and patch decide first; then
a version without pre-release is above one with; then the pre-release identifiers decide.
Build metadata takes no part. -/
def Version.Compare (v o : Version) : Int :=
  if v.Major ≠ o.Major then
    if v.Major > o.Major then 1 else -1
  else if v.Minor ≠ o.Minor then
    if v.Minor > o.Minor then 1 else -1
  else if v.Patch ≠ o.Patch then
    if v.Patch > o.Patch then 1 else -1
  else if v.Pre.length = 0 ∧ o.Pre.length = 0 then 0
  else if v.Pre.length = 0 ∧ o.Pre.length > 0 then 1
  else if v.Pre.length > 0 ∧ o.Pre.length = 0 then -1
  else comparePre v.Pre o.Pre

/-- Modelled from the spec: `>` on SemanticVersion (section 3). -/
def Version.GT (v o : Version) : Bool :=
  decide (v.Compare o = 1)

/-- Modelled from the spec: `>=` on SemanticVersion (section 3). -/
def Version.GTE (v o : Version) : Bool :=
  decide (v.Compare o ≥ 0)

/-- Modelled from the spec: the text of one pre-release identifier. -/
def PRVersion.String (v : PRVersion) : String :=
  if v.IsNum then toString v.VersionNum else v.VersionStr

/-- Modelled from the spec: the canonical string form of a SemanticVersion:
`major.minor.patch`, then `-` and the pre-release identifiers joined by dots when there
are any, then `+` and the build identifiers joined by dots when there are any. -/
def Version.String (v : Version) : String :=
  let b := toString v.Major ++ "." ++ toString v.Minor ++ "." ++ toString v.Patch
  let b :=
    match v.Pre with
    | [] => b
    | pre0 :: pres => pres.foldl (fun acc pre => acc ++ "." ++ pre.String) (b ++ "-" ++ pre0.String)
  match v.Build with
  | [] => b
  | build0 :: builds => builds.foldl (fun acc build => acc ++ "." ++ build) (b ++ "+" ++ build0)

end semver

namespace manifest

/-- Modelled from the spec: one manifest object (section 3, ManifestObjectSet), "exposing a
mapping from string key to string value (annotations)".  The type is declared outside
`src/`.  The mapping is a key-value list read with `List.lookup`; `Group`, `Kind`, `Name`
and `content` stand for everything else the object carries. -/
structure Object where
  Group : String
  Kind : String
  Name : String
  content : String
  annotations : List (String × String)
deriving DecidableEq

/-- Modelled from the spec: "an ordered sequence of manifest objects" (section 3); the type
is declared outside `src/`. -/
structure Objects where
  Items : List Object
deriving DecidableEq

end manifest

namespace addonsv1alpha1

/-- Modelled from the spec: the status value of section 6, "a boolean health flag and an
ordered sequence of string error messages"; the type is declared outside `src/`. -/
structure CommonStatus where
  Healthy : Bool
  Errors : List String
deriving DecidableEq

end addonsv1alpha1

namespace declarative

/-- Modelled from the spec: ReconciliationTarget (section 3), "polymorphic over the
capability can report a health/error status".  The interfaces are declared outside `src/`.
`typeName` is the concrete type of the target, `isCommonObject` says whether that type has
the status-reporting capability, `status` is the status the target holds and
`setCommonStatusCalls` lists the statuses it was handed through its set-status operation,
oldest first. -/
structure DeclarativeObject where
  typeName : String
  name : String
  isCommonObject : Bool
  status : addonsv1alpha1.CommonStatus
  setCommonStatusCalls : List addonsv1alpha1.CommonStatus
deriving DecidableEq

/-- Modelled from the spec: the set-status operation of the target (section 6), a "single
synchronous write" of the given status (section 5); it is implemented outside `src/`. -/
def DeclarativeObject.SetCommonStatus (o : DeclarativeObject)
    (s : addonsv1alpha1.CommonStatus) : DeclarativeObject :=
  { o with status := s, setCommonStatusCalls := o.setCommonStatusCalls ++ [s] }

end declarative

namespace client

/-- Modelled from the spec: the "cluster client handle: opaque" of section 6. -/
structure Client where
  handle : Nat
deriving DecidableEq

end client

namespace status

open semver manifest addonsv1alpha1 declarative

/-- The errors that `NewVersionCheck` and `VersionCheck` return.  `parse err` is the error
of `semver.Parse` returned as it is (version.go:48); the other three are the `fmt.Errorf`
values of version.go:21, :63 and :75 with their arguments. -/
inductive GoError where
  | parse (err : ParseError)
  | unableToParse (operatorVersionString : String) (err : ParseError)
  | notCommonObject (T : String)
  | notQualified (required : String)
deriving DecidableEq

/-- The text of an error (its `Error()`), following the three format strings of
version.go.  `parseText` renders a parse error of the version library (`%v`) and `quote`
is the quoting of `%q`; both belong to libraries outside `src/` and are parameters. -/
def GoError.Error (parseText : ParseError → String) (quote : String → String) :
    GoError → String
  | .parse err => parseText err
  | .unableToParse operatorVersionString err =>
    "unable to parse operator version " ++ quote operatorVersionString ++ ": " ++ parseText err
  | .notCommonObject T => "object " ++ T ++ " was not an addonsv1alpha1.CommonObject"
  | .notQualified required =>
    "operator not qualified, manifest needs operator version >= " ++ required

/-- The text of an error with the two library renderers filled in: parse errors by their
own messages and `%q` by the quoting of the formatting library; `wide` stands for the
character tables above U+00FF. -/
def GoError.errorText (wide : Char → Bool) (e : GoError) : String :=
  e.Error (ParseError.Error wide) (strconv.Quote wide)

/-- The gate (version.go:26-29). -/
structure versionCheck where
  client : client.Client
  operatorVersion : Version
deriving DecidableEq

/-- `NewVersionCheck` (version.go:18-24). -/
def NewVersionCheck (client : client.Client) (operatorVersionString : String) :
    Except GoError versionCheck :=
  match Parse operatorVersionString with
  | .error err => .error (.unableToParse operatorVersionString err)
  | .ok operatorVersion => .ok { client := client, operatorVersion := operatorVersion }

/-- The annotation key read by the loop (version.go:42). -/
def minOperatorVersionKey : String := "addons.k8s.io/min-operator-version"

/-- The loop of version.go:40-55 over the remaining items, `minOperatorVersion` being the
value of the loop variable so far: the first annotation value that does not parse ends the
loop with its error; a parsed value strictly greater than `minOperatorVersion` replaces
it. -/
def scanItems : List Object → Version → Except ParseError Version
  | [], minOperatorVersion => .ok minOperatorVersion
  | obj :: rest, minOperatorVersion =>
    match obj.annotations.lookup minOperatorVersionKey with
    | some versionNeededStr =>
      match Parse versionNeededStr with
      | .error err => .error err
      | .ok versionNeeded =>
        if versionNeeded.GT minOperatorVersion then scanItems rest versionNeeded
        else scanItems rest minOperatorVersion
    | none => scanItems rest minOperatorVersion

/-- What a call of `VersionCheck` leaves behind: the two returned values, the target after
the call and the gate after the call. -/
structure Outcome where
  ok : Bool
  err : Option GoError
  src : DeclarativeObject
  p : versionCheck
deriving DecidableEq

/-- The values of the annotation `addons.k8s.io/min-operator-version` in a manifest, in
object order (objects without the annotation contribute nothing). -/
def annotationValues (items : List Object) : List String :=
  items.filterMap (fun obj => obj.annotations.lookup minOperatorVersionKey)

/-- The versions that the annotation values of a manifest parse to, in object order
(values that do not parse contribute nothing). -/
def parsedValues (items : List Object) : List Version :=
  (annotationValues items).filterMap (fun s => (Parse s).toOption)

/-- The status message of version.go:69. -/
def statusMessage (minOperatorVersion operatorVersion : Version) : String :=
  "manifest needs operator version >= " ++ minOperatorVersion.String ++
    ", this operator is version " ++ operatorVersion.String

/-- `versionCheck.VersionCheck` (version.go:31-76).  `minOperatorVersion` starts as the
zero value of `semver.Version` (version.go:37). -/
def versionCheck.VersionCheck (p : versionCheck) (src : DeclarativeObject)
    (objs : Objects) : Outcome :=
  match scanItems objs.Items Version.zero with
  | .error err => { ok := false, err := some (.parse err), src := src, p := p }
  | .ok minOperatorVersion =>
    if p.operatorVersion.GTE minOperatorVersion then
      { ok := true, err := none, src := src, p := p }
    else if ¬ src.isCommonObject then
      { ok := false, err := some (.notCommonObject src.typeName), src := src, p := p }
    else
      let status : CommonStatus :=
        { Healthy := false, Errors := [statusMessage minOperatorVersion p.operatorVersion] }
      { ok := false, err := some (.notQualified minOperatorVersion.String),
        src := src.SetCommonStatus status, p := p }

/-- A target with the status-reporting capability, used in the concrete checks below. -/
def exampleTarget : DeclarativeObject :=
  { typeName := "*v1alpha1.Dashboard", name := "dashboard", isCommonObject := true,
    status := { Healthy := true, Errors := [] }, setCommonStatusCalls := [] }

/-- A target without the status-reporting capability, used in the concrete checks below. -/
def exampleOther : DeclarativeObject :=
  { typeName := "*v1.ConfigMap", name := "settings", isCommonObject := false,
    status := { Healthy := true, Errors := [] }, setCommonStatusCalls := [] }

/-- A manifest object whose only annotation is `addons.k8s.io/min-operator-version = v`. -/
def annotated (v : String) : Object :=
  { Group := "apps", Kind := "Deployment", Name := "d", content := "",
    annotations := [(minOperatorVersionKey, v)] }

/-- A manifest object that carries other annotations only. -/
def unannotated : Object :=
  { Group := "", Kind := "Service", Name := "s", content := "ports",
    annotations := [("min-operator-version", "9.9.9"), ("app", "web")] }

end status

/-! Section: The precedence of versions is a total preorder -/

namespace semver

theorem PRVersion.prCompare_values (a b : PRVersion) :
    a.Compare b = -1 ∨ a.Compare b = 0 ∨ a.Compare b = 1 := by
  unfold PRVersion.Compare
  split_ifs <;> simp

theorem PRVersion.prCompare_antisymm (a b : PRVersion) : b.Compare a = - a.Compare b := by
  unfold PRVersion.Compare
  rcases lt_trichotomy a.VersionStr.data b.VersionStr.data with h | h | h
  · have h1 : ¬ b.VersionStr.data < a.VersionStr.data := lt_asymm h
    have h2 : a.VersionStr ≠ b.VersionStr := fun e => by rw [e] at h; exact lt_irrefl _ h
    have h3 : b.VersionStr ≠ a.VersionStr := fun e => h2 e.symm
    cases a.IsNum <;> cases b.IsNum <;> simp [h, h1, h2, h3] <;> split_ifs <;> omega
  · have h2 : a.VersionStr = b.VersionStr := String.ext h
    cases a.IsNum <;> cases b.IsNum <;> simp [h2] <;> split_ifs <;> omega
  · have h1 : ¬ a.VersionStr.data < b.VersionStr.data := lt_asymm h
    have h2 : a.VersionStr ≠ b.VersionStr := fun e => by rw [e] at h; exact lt_irrefl _ h
    have h3 : b.VersionStr ≠ a.VersionStr := fun e => h2 e.symm
    cases a.IsNum <;> cases b.IsNum <;> simp [h, h1, h2, h3] <;> split_ifs <;> omega

theorem PRVersion.prCompare_nonneg_iff (a b : PRVersion) :
    0 ≤ a.Compare b ↔
      ((a.IsNum = false ∧ b.IsNum = true) ∨
       (a.IsNum = true ∧ b.IsNum = true ∧ b.VersionNum ≤ a.VersionNum) ∨
       (a.IsNum = false ∧ b.IsNum = false ∧ b.VersionStr.data ≤ a.VersionStr.data)) := by
  unfold PRVersion.Compare
  rcases lt_trichotomy a.VersionStr.data b.VersionStr.data with h | h | h
  · have h1 : ¬ b.VersionStr.data < a.VersionStr.data := lt_asymm h
    have h2 : a.VersionStr ≠ b.VersionStr := fun e => by rw [e] at h; exact lt_irrefl _ h
    have h4 : ¬ b.VersionStr.data ≤ a.VersionStr.data := not_le.mpr h
    cases a.IsNum <;> cases b.IsNum <;> simp [h, h1, h2, h4] <;> split_ifs <;> omega
  · have h2 : a.VersionStr = b.VersionStr := String.ext h
    cases a.IsNum <;> cases b.IsNum <;> simp [h2] <;> split_ifs <;> omega
  · have h1 : ¬ a.VersionStr.data < b.VersionStr.data := lt_asymm h
    have h2 : a.VersionStr ≠ b.VersionStr := fun e => by rw [e] at h; exact lt_irrefl _ h
    have h4 : b.VersionStr.data ≤ a.VersionStr.data := le_of_lt h
    cases a.IsNum <;> cases b.IsNum <;> simp [h, h1, h2, h4] <;> split_ifs <;> omega

theorem PRVersion.prCompare_trans (a b c : PRVersion) (h1 : 0 ≤ a.Compare b)
    (h2 : 0 ≤ b.Compare c) : 0 ≤ a.Compare c := by
  rw [PRVersion.prCompare_nonneg_iff] at *
  rcases h1 with ⟨x1, x2⟩ | ⟨x1, x2, x3⟩ | ⟨x1, x2, x3⟩ <;>
  rcases h2 with ⟨y1, y2⟩ | ⟨y1, y2, y3⟩ | ⟨y1, y2, y3⟩ <;> simp_all
  · omega
  · exact le_trans y3 x3



theorem PRVersion.prCompare_pos_of (a b c : PRVersion) (h1 : 0 ≤ a.Compare b)
    (h2 : 0 ≤ b.Compare c) (h3 : a.Compare b = 1 ∨ b.Compare c = 1) : a.Compare c = 1 := by
  have t := PRVersion.prCompare_trans a b c h1 h2
  have v := PRVersion.prCompare_values a c
  by_contra hne
  have h0 : a.Compare c = 0 := by omega
  have s1 := PRVersion.prCompare_antisymm a c
  have s2 := PRVersion.prCompare_antisymm a b
  have s3 := PRVersion.prCompare_antisymm b c
  have t1 := PRVersion.prCompare_trans c a b (by omega) h1
  have t2 := PRVersion.prCompare_trans b c a h2 (by omega)
  omega

theorem comparePre_values (p q : List PRVersion) :
    comparePre p q = -1 ∨ comparePre p q = 0 ∨ comparePre p q = 1 := by
  induction p generalizing q with
  | nil => cases q <;> simp [comparePre]
  | cons a as ih =>
    cases q with
    | nil => simp [comparePre]
    | cons b bs =>
      simp only [comparePre]
      split_ifs
      · exact ih bs
      · simp
      · simp

theorem comparePre_antisymm (p q : List PRVersion) : comparePre q p = - comparePre p q := by
  induction p generalizing q with
  | nil => cases q <;> simp [comparePre]
  | cons a as ih =>
    cases q with
    | nil => simp [comparePre]
    | cons b bs =>
      have s := PRVersion.prCompare_antisymm a b
      have v := PRVersion.prCompare_values a b
      simp only [comparePre]
      rcases v with v | v | v <;> simp [v, s, ih bs]

theorem comparePre_trans (p q r : List PRVersion) (h1 : 0 ≤ comparePre p q)
    (h2 : 0 ≤ comparePre q r) : 0 ≤ comparePre p r := by
  induction p generalizing q r with
  | nil =>
    cases q with
    | nil => exact h2
    | cons b bs => simp [comparePre] at h1
  | cons a as ih =>
    cases q with
    | nil => cases r <;> simp [comparePre] at h2 ⊢
    | cons b bs =>
      cases r with
      | nil => simp [comparePre]
      | cons c cs =>
        have vab := PRVersion.prCompare_values a b
        have vbc := PRVersion.prCompare_values b c
        simp only [comparePre] at h1 h2 ⊢
        rcases vab with vab | vab | vab
        · simp [vab] at h1
        · rcases vbc with vbc | vbc | vbc
          · simp [vbc] at h2
          · have hac : a.Compare c = 0 := by
              have t := PRVersion.prCompare_trans a b c (by omega) (by omega)
              have s1 := PRVersion.prCompare_antisymm a c
              have s2 := PRVersion.prCompare_antisymm a b
              have s3 := PRVersion.prCompare_antisymm b c
              have t2 := PRVersion.prCompare_trans c b a (by omega) (by omega)
              omega
            simp only [vab, vbc, hac, if_true] at h1 h2 ⊢
            exact ih bs cs h1 h2
          · have hac := PRVersion.prCompare_pos_of a b c (by omega) (by omega) (Or.inr vbc)
            simp [hac]
        · have hbc : 0 ≤ b.Compare c := by
            rcases vbc with vbc | vbc | vbc
            · simp [vbc] at h2
            · omega
            · omega
          have hac := PRVersion.prCompare_pos_of a b c (by omega) hbc (Or.inl vab)
          simp [hac]

theorem Version.Compare_values (v o : Version) :
    v.Compare o = -1 ∨ v.Compare o = 0 ∨ v.Compare o = 1 := by
  unfold Version.Compare
  split_ifs <;> first | simp | exact comparePre_values _ _

/-- The pre-release stage of `Version.Compare`, reached when major, minor and patch agree. -/
theorem Version.Compare_of_eq (v o : Version) (hM : v.Major = o.Major)
    (hm : v.Minor = o.Minor) (hp : v.Patch = o.Patch) :
    v.Compare o =
      if v.Pre = [] ∧ o.Pre = [] then 0
      else if v.Pre = [] then 1
      else if o.Pre = [] then -1
      else comparePre v.Pre o.Pre := by
  unfold Version.Compare
  cases hv : v.Pre <;> cases ho : o.Pre <;> simp [hM, hm, hp]

theorem Version.Compare_of_Major_ne (v o : Version) (hM : v.Major ≠ o.Major) :
    v.Compare o = if v.Major > o.Major then 1 else -1 := by
  unfold Version.Compare
  simp [hM]

theorem Version.Compare_of_Minor_ne (v o : Version) (hM : v.Major = o.Major)
    (hm : v.Minor ≠ o.Minor) :
    v.Compare o = if v.Minor > o.Minor then 1 else -1 := by
  unfold Version.Compare
  simp [hM, hm]

theorem Version.Compare_of_Patch_ne (v o : Version) (hM : v.Major = o.Major)
    (hm : v.Minor = o.Minor) (hp : v.Patch ≠ o.Patch) :
    v.Compare o = if v.Patch > o.Patch then 1 else -1 := by
  unfold Version.Compare
  simp [hM, hm, hp]

theorem Version.Compare_antisymm (v o : Version) : o.Compare v = - v.Compare o := by
  by_cases hM : v.Major = o.Major
  · by_cases hm : v.Minor = o.Minor
    · by_cases hp : v.Patch = o.Patch
      · rw [Version.Compare_of_eq v o hM hm hp, Version.Compare_of_eq o v hM.symm hm.symm hp.symm]
        have s := comparePre_antisymm v.Pre o.Pre
        cases hv : v.Pre <;> cases ho : o.Pre <;> simp
        rw [hv, ho] at s
        simpa using s
      · rw [Version.Compare_of_Patch_ne v o hM hm hp,
          Version.Compare_of_Patch_ne o v hM.symm hm.symm (Ne.symm hp)]
        split_ifs <;> omega
    · rw [Version.Compare_of_Minor_ne v o hM hm,
        Version.Compare_of_Minor_ne o v hM.symm (Ne.symm hm)]
      split_ifs <;> omega
  · rw [Version.Compare_of_Major_ne v o hM, Version.Compare_of_Major_ne o v (Ne.symm hM)]
    split_ifs <;> omega

theorem Version.Compare_trans (a b c : Version) (h1 : 0 ≤ a.Compare b)
    (h2 : 0 ≤ b.Compare c) : 0 ≤ a.Compare c := by
  by_cases hM1 : a.Major = b.Major
  · by_cases hM2 : b.Major = c.Major
    · by_cases hm1 : a.Minor = b.Minor
      · by_cases hm2 : b.Minor = c.Minor
        · by_cases hp1 : a.Patch = b.Patch
          · by_cases hp2 : b.Patch = c.Patch
            · rw [Version.Compare_of_eq a b hM1 hm1 hp1] at h1
              rw [Version.Compare_of_eq b c hM2 hm2 hp2] at h2
              rw [Version.Compare_of_eq a c (hM1.trans hM2) (hm1.trans hm2) (hp1.trans hp2)]
              have t := comparePre_trans a.Pre b.Pre c.Pre
              cases ha : a.Pre <;> cases hb : b.Pre <;> cases hc : c.Pre <;>
                simp [ha, hb, hc] at h1 h2 t ⊢
              exact t h1 h2
            · rw [Version.Compare_of_Patch_ne b c hM2 hm2 hp2] at h2
              rw [Version.Compare_of_Patch_ne a c (hM1.trans hM2) (hm1.trans hm2) (by omega)]
              split_ifs at h2 ⊢ <;> omega
          · rw [Version.Compare_of_Patch_ne a b hM1 hm1 hp1] at h1
            by_cases hp2 : b.Patch = c.Patch
            · rw [Version.Compare_of_Patch_ne a c (hM1.trans hM2) (hm1.trans hm2) (by omega)]
              split_ifs at h1 ⊢ <;> omega
            · rw [Version.Compare_of_Patch_ne b c hM2 hm2 hp2] at h2
              have : a.Patch ≠ c.Patch := by split_ifs at h1 h2 <;> omega
              rw [Version.Compare_of_Patch_ne a c (hM1.trans hM2) (hm1.trans hm2) this]
              split_ifs at h1 h2 ⊢ <;> omega
        · rw [Version.Compare_of_Minor_ne b c hM2 hm2] at h2
          rw [Version.Compare_of_Minor_ne a c (hM1.trans hM2) (by omega)]
          split_ifs at h2 ⊢ <;> omega
      · rw [Version.Compare_of_Minor_ne a b hM1 hm1] at h1
        by_cases hm2 : b.Minor = c.Minor
        · rw [Version.Compare_of_Minor_ne a c (hM1.trans hM2) (by omega)]
          split_ifs at h1 ⊢ <;> omega
        · rw [Version.Compare_of_Minor_ne b c hM2 hm2] at h2
          have : a.Minor ≠ c.Minor := by split_ifs at h1 h2 <;> omega
          rw [Version.Compare_of_Minor_ne a c (hM1.trans hM2) this]
          split_ifs at h1 h2 ⊢ <;> omega
    · rw [Version.Compare_of_Major_ne b c hM2] at h2
      rw [Version.Compare_of_Major_ne a c (by omega)]
      split_ifs at h2 ⊢ <;> omega
  · rw [Version.Compare_of_Major_ne a b hM1] at h1
    by_cases hM2 : b.Major = c.Major
    · rw [Version.Compare_of_Major_ne a c (by omega)]
      split_ifs at h1 ⊢ <;> omega
    · rw [Version.Compare_of_Major_ne b c hM2] at h2
      have : a.Major ≠ c.Major := by split_ifs at h1 h2 <;> omega
      rw [Version.Compare_of_Major_ne a c this]
      split_ifs at h1 h2 ⊢ <;> omega

theorem Version.GTE_refl (v : Version) : v.GTE v = true := by
  have s := Version.Compare_antisymm v v
  simp only [Version.GTE, decide_eq_true_eq]
  omega

theorem Version.GTE_total (v o : Version) : v.GTE o = true ∨ o.GTE v = true := by
  have s := Version.Compare_antisymm v o
  simp only [Version.GTE, decide_eq_true_eq]
  omega

theorem Version.GTE_trans (a b c : Version) (h1 : a.GTE b = true) (h2 : b.GTE c = true) :
    a.GTE c = true := by
  simp only [Version.GTE, decide_eq_true_eq] at *
  exact Version.Compare_trans a b c h1 h2

theorem Version.GT_iff_not_GTE (v o : Version) : v.GT o = true ↔ o.GTE v = false := by
  have s := Version.Compare_antisymm v o
  have w := Version.Compare_values v o
  simp only [Version.GT, Version.GTE, decide_eq_true_eq, decide_eq_false_iff_not]
  omega

theorem Version.GTE_of_GT (v o : Version) (h : v.GT o = true) : v.GTE o = true := by
  simp only [Version.GT, Version.GTE, decide_eq_true_eq] at *
  omega

end semver

/-! Section: The loop over the manifest -/

namespace status

open semver manifest addonsv1alpha1 declarative

theorem scanItems_cons_none (obj : Object) (rest : List Object) (m : Version)
    (h : obj.annotations.lookup minOperatorVersionKey = none) :
    scanItems (obj :: rest) m = scanItems rest m := by
  simp [scanItems, h]

theorem scanItems_cons_error (obj : Object) (rest : List Object) (m : Version) (s : String)
    (e : ParseError) (h : obj.annotations.lookup minOperatorVersionKey = some s)
    (hp : Parse s = .error e) : scanItems (obj :: rest) m = .error e := by
  simp [scanItems, h, hp]

theorem scanItems_cons_ok (obj : Object) (rest : List Object) (m : Version) (s : String)
    (v : Version) (h : obj.annotations.lookup minOperatorVersionKey = some s)
    (hp : Parse s = .ok v) :
    scanItems (obj :: rest) m = scanItems rest (if v.GT m then v else m) := by
  simp only [scanItems, h, hp]
  split_ifs <;> rfl

/-- The loop fails exactly when some annotation value does not parse. -/
theorem scanItems_error_iff (items : List Object) (m : Version) :
    (∃ e, scanItems items m = .error e) ↔
      ∃ s ∈ annotationValues items, ∃ e, Parse s = .error e := by
  induction items generalizing m with
  | nil => simp [scanItems, annotationValues]
  | cons obj rest ih =>
    cases h : obj.annotations.lookup minOperatorVersionKey with
    | none =>
      rw [scanItems_cons_none obj rest m h, ih m]
      simp [annotationValues, h]
    | some s =>
      cases hp : Parse s with
      | error e =>
        rw [scanItems_cons_error obj rest m s e h hp]
        simp only [annotationValues, List.filterMap_cons, h]
        constructor
        · intro _
          exact ⟨s, List.mem_cons_self _ _, e, hp⟩
        · intro _
          exact ⟨e, rfl⟩
      | ok v =>
        rw [scanItems_cons_ok obj rest m s v h hp, ih]
        simp only [annotationValues, List.filterMap_cons, h, List.mem_cons]
        constructor
        · rintro ⟨s1, hs1, e, he⟩
          exact ⟨s1, Or.inr hs1, e, he⟩
        · rintro ⟨s1, hs1 | hs1, e, he⟩
          · rw [hs1, hp] at he
            cases he
          · exact ⟨s1, hs1, e, he⟩

theorem parsedValues_cons_none (obj : Object) (rest : List Object)
    (h : obj.annotations.lookup minOperatorVersionKey = none) :
    parsedValues (obj :: rest) = parsedValues rest := by
  simp [parsedValues, annotationValues, h]

theorem parsedValues_cons_ok (obj : Object) (rest : List Object) (s : String) (v : Version)
    (h : obj.annotations.lookup minOperatorVersionKey = some s) (hp : Parse s = .ok v) :
    parsedValues (obj :: rest) = v :: parsedValues rest := by
  simp [parsedValues, annotationValues, h, hp, Except.toOption]

/-- When the loop ends without a parse error, its result is a greatest element of the start
value and the parsed annotation values. -/
theorem scanItems_ok_max (items : List Object) (m r : Version)
    (h : scanItems items m = .ok r) :
    r.GTE m = true ∧ (∀ v ∈ parsedValues items, r.GTE v = true) ∧
      (r = m ∨ r ∈ parsedValues items) := by
  induction items generalizing m with
  | nil =>
    simp only [scanItems, Except.ok.injEq] at h
    subst h
    exact ⟨Version.GTE_refl _, by simp [parsedValues, annotationValues], Or.inl rfl⟩
  | cons obj rest ih =>
    cases hl : obj.annotations.lookup minOperatorVersionKey with
    | none =>
      rw [scanItems_cons_none obj rest m hl] at h
      rw [parsedValues_cons_none obj rest hl]
      exact ih m h
    | some s =>
      cases hp : Parse s with
      | error e =>
        rw [scanItems_cons_error obj rest m s e hl hp] at h
        cases h
      | ok v =>
        rw [scanItems_cons_ok obj rest m s v hl hp] at h
        rw [parsedValues_cons_ok obj rest s v hl hp]
        obtain ⟨h1, h2, h3⟩ := ih _ h
        by_cases hgt : v.GT m = true
        · simp only [hgt, if_true] at h1 h3
          refine ⟨Version.GTE_trans _ _ _ h1 (Version.GTE_of_GT _ _ hgt), ?_, ?_⟩
          · intro w hw
            rcases List.mem_cons.mp hw with hw | hw
            · rw [hw]; exact h1
            · exact h2 w hw
          · rcases h3 with h3 | h3
            · exact Or.inr (by rw [h3]; exact List.mem_cons_self _ _)
            · exact Or.inr (List.mem_cons_of_mem _ h3)
        · simp only [hgt] at h1 h3
          have hmv : m.GTE v = true := by
            rcases Version.GTE_total m v with t | t
            · exact t
            · by_contra hc
              have : v.GT m = true := (Version.GT_iff_not_GTE v m).mpr (by simpa using hc)
              exact hgt this
          refine ⟨h1, ?_, ?_⟩
          · intro w hw
            rcases List.mem_cons.mp hw with hw | hw
            · rw [hw]; exact Version.GTE_trans _ _ _ h1 hmv
            · exact h2 w hw
          · rcases h3 with h3 | h3
            · exact Or.inl h3
            · exact Or.inr (List.mem_cons_of_mem _ h3)

/-- When every annotation value parses, the loop ends with a version. -/
theorem scanItems_ok_of_all_parse (items : List Object) (m : Version)
    (h : ∀ s ∈ annotationValues items, ∃ v, Parse s = .ok v) :
    ∃ r, scanItems items m = .ok r := by
  cases hs : scanItems items m with
  | ok r => exact ⟨r, rfl⟩
  | error e =>
    obtain ⟨s, hs1, e1, he1⟩ := (scanItems_error_iff items m).mp ⟨e, hs⟩
    obtain ⟨v, hv⟩ := h s hs1
    rw [hv] at he1
    cases he1

/-- A version is at or above the result of the loop exactly when it is at or above the
start value and every parsed annotation value. -/
theorem GTE_scanItems_iff (items : List Object) (m r a : Version)
    (h : scanItems items m = .ok r) :
    a.GTE r = true ↔ (a.GTE m = true ∧ ∀ v ∈ parsedValues items, a.GTE v = true) := by
  obtain ⟨h1, h2, h3⟩ := scanItems_ok_max items m r h
  constructor
  · intro ha
    exact ⟨Version.GTE_trans _ _ _ ha h1, fun v hv => Version.GTE_trans _ _ _ ha (h2 v hv)⟩
  · rintro ⟨ha, hb⟩
    rcases h3 with h3 | h3
    · rw [h3]; exact ha
    · exact hb r h3

end status

/-! Section: The outcome of `VersionCheck`, branch by branch -/

namespace status

open semver manifest addonsv1alpha1 declarative

theorem VersionCheck_of_error (p : versionCheck) (src : DeclarativeObject) (objs : Objects)
    (e : ParseError) (h : scanItems objs.Items Version.zero = .error e) :
    p.VersionCheck src objs = { ok := false, err := some (.parse e), src := src, p := p } := by
  simp [versionCheck.VersionCheck, h]

theorem VersionCheck_of_pass (p : versionCheck) (src : DeclarativeObject) (objs : Objects)
    (r : Version) (h : scanItems objs.Items Version.zero = .ok r)
    (hge : p.operatorVersion.GTE r = true) :
    p.VersionCheck src objs = { ok := true, err := none, src := src, p := p } := by
  simp [versionCheck.VersionCheck, h, hge]

theorem VersionCheck_of_notCommonObject (p : versionCheck) (src : DeclarativeObject)
    (objs : Objects) (r : Version) (h : scanItems objs.Items Version.zero = .ok r)
    (hge : p.operatorVersion.GTE r = false) (hc : src.isCommonObject = false) :
    p.VersionCheck src objs =
      { ok := false, err := some (.notCommonObject src.typeName), src := src, p := p } := by
  simp [versionCheck.VersionCheck, h, hge, hc]

theorem VersionCheck_of_tooOld (p : versionCheck) (src : DeclarativeObject)
    (objs : Objects) (r : Version) (h : scanItems objs.Items Version.zero = .ok r)
    (hge : p.operatorVersion.GTE r = false) (hc : src.isCommonObject = true) :
    p.VersionCheck src objs =
      { ok := false, err := some (.notQualified r.String),
        src := src.SetCommonStatus
          { Healthy := false, Errors := [statusMessage r p.operatorVersion] },
        p := p } := by
  simp [versionCheck.VersionCheck, h, hge, hc]

theorem VersionCheck_ok_iff (p : versionCheck) (src : DeclarativeObject) (objs : Objects)
    (r : Version) (h : scanItems objs.Items Version.zero = .ok r) :
    (p.VersionCheck src objs).ok = true ↔ p.operatorVersion.GTE r = true := by
  cases hge : p.operatorVersion.GTE r
  · cases hc : src.isCommonObject
    · rw [VersionCheck_of_notCommonObject p src objs r h hge hc]
    · rw [VersionCheck_of_tooOld p src objs r h hge hc]
  · rw [VersionCheck_of_pass p src objs r h hge]

/-! Section: The claims -/

/-- A parse error returned by the loop is the parse error of one of the annotation
values. -/
theorem scanItems_error_mem (items : List Object) (m : Version) (err : ParseError)
    (h : scanItems items m = .error err) :
    ∃ s ∈ annotationValues items, Parse s = .error err := by
  induction items generalizing m with
  | nil => simp [scanItems] at h
  | cons obj rest ih =>
    cases hl : obj.annotations.lookup minOperatorVersionKey with
    | none =>
      rw [scanItems_cons_none obj rest m hl] at h
      obtain ⟨s, hs, hp⟩ := ih m h
      exact ⟨s, by simpa [annotationValues, hl] using hs, hp⟩
    | some s0 =>
      cases hp : Parse s0 with
      | error e =>
        rw [scanItems_cons_error obj rest m s0 e hl hp] at h
        cases h
        exact ⟨s0, by simp [annotationValues, hl], hp⟩
      | ok v =>
        rw [scanItems_cons_ok obj rest m s0 v hl hp] at h
        obtain ⟨s, hs, hps⟩ := ih _ h
        exact ⟨s, by
          simp only [annotationValues, List.filterMap_cons, hl, List.mem_cons]
          exact Or.inr hs, hps⟩

/-- C4: when at least one object of the manifest carries an
`addons.k8s.io/min-operator-version` value that does not parse, `VersionCheck` returns false
together with a parse error (the error of an annotation value of the manifest), for every
gate, every target, every position of the malformed object and whatever the other objects
carry; the target is left as it was. -/
theorem C4_malformed_annotation_fails (p : versionCheck) (src : DeclarativeObject)
    (objs : Objects) (obj : Object) (s : String) (e : ParseError)
    (hmem : obj ∈ objs.Items)
    (hann : obj.annotations.lookup minOperatorVersionKey = some s)
    (hbad : Parse s = .error e) :
    ∃ err,
      p.VersionCheck src objs = { ok := false, err := some (.parse err), src := src, p := p } ∧
      ∃ s1 ∈ annotationValues objs.Items, Parse s1 = .error err := by
  have hex : ∃ s ∈ annotationValues objs.Items, ∃ e, Parse s = .error e := by
    refine ⟨s, ?_, e, hbad⟩
    simp only [annotationValues, List.mem_filterMap]
    exact ⟨obj, hmem, hann⟩
  obtain ⟨err, herr⟩ := (scanItems_error_iff objs.Items Version.zero).mpr hex
  exact ⟨err, VersionCheck_of_error p src objs err herr,
    scanItems_error_mem objs.Items Version.zero err herr⟩

/-- C4, concrete check: the malformed value `not-a-version` sits between two valid
annotations, one of which alone would already fail the controller `1.0.0`. -/
theorem C4_malformed_annotation_fails_witness :
    ∃ err,
      (versionCheck.mk { handle := 0 } ⟨1, 0, 0, [], []⟩).VersionCheck exampleTarget
          { Items := [annotated "2.0.0", annotated "not-a-version", annotated "0.1.0"] } =
        { ok := false, err := some (.parse err), src := exampleTarget,
          p := versionCheck.mk { handle := 0 } ⟨1, 0, 0, [], []⟩ } ∧
      ∃ s1 ∈ annotationValues [annotated "2.0.0", annotated "not-a-version", annotated "0.1.0"],
        Parse s1 = .error err :=
  C4_malformed_annotation_fails (versionCheck.mk { handle := 0 } ⟨1, 0, 0, [], []⟩)
    exampleTarget { Items := [annotated "2.0.0", annotated "not-a-version", annotated "0.1.0"] }
    (annotated "not-a-version") "not-a-version" .noMajorMinorPatch (by decide) rfl rfl

theorem notQualified_text_ne_statusMessage (x y : String) :
    "operator not qualified, manifest needs operator version >= " ++ x ≠
      "manifest needs operator version >= " ++ y := by
  intro h
  have h2 := congrArg String.data h
  simp only [String.data_append] at h2
  simp at h2

theorem notCommonObject_text_ne_notQualified_text (x y : String) :
    "object " ++ x ++ " was not an addonsv1alpha1.CommonObject" ≠
      "operator not qualified, manifest needs operator version >= " ++ y := by
  intro h
  have h2 := congrArg String.data h
  simp only [String.data_append] at h2
  simp at h2

/-- C5: for every manifest whose annotations all parse, so that the loop computes a required
version, with that version strictly greater than the controller version, and every target
with the status-reporting capability, `VersionCheck` returns false with a non-nil error and
calls `SetCommonStatus` exactly once, with the status whose `Healthy` is false and whose
`Errors` is the one-element list holding `manifest needs operator version >= (required),
this operator is version (controller)`, both versions in canonical string form. -/
theorem C5_too_old_reports_status (p : versionCheck) (src : DeclarativeObject)
    (objs : Objects) (required : Version)
    (hscan : scanItems objs.Items Version.zero = .ok required)
    (hgt : required.GT p.operatorVersion = true)
    (hc : src.isCommonObject = true) :
    (p.VersionCheck src objs).ok = false ∧
    (p.VersionCheck src objs).err = some (.notQualified required.String) ∧
    (p.VersionCheck src objs).src.setCommonStatusCalls =
      src.setCommonStatusCalls ++
        [{ Healthy := false,
           Errors := ["manifest needs operator version >= " ++ required.String ++
             ", this operator is version " ++ p.operatorVersion.String] }] ∧
    (p.VersionCheck src objs).src.status =
      { Healthy := false,
        Errors := ["manifest needs operator version >= " ++ required.String ++
          ", this operator is version " ++ p.operatorVersion.String] } := by
  have hge : p.operatorVersion.GTE required = false :=
    (Version.GT_iff_not_GTE required p.operatorVersion).mp hgt
  rw [VersionCheck_of_tooOld p src objs required hscan hge hc]
  exact ⟨rfl, rfl, rfl, rfl⟩

/-- C5, concrete check: controller `1.0.0`, required `2.0.0`; the message reads
`manifest needs operator version >= 2.0.0, this operator is version 1.0.0`. -/
theorem C5_too_old_reports_status_witness :
    (Version.mk 2 0 0 [] []).String = "2.0.0" ∧ (Version.mk 1 0 0 [] []).String = "1.0.0" ∧
    "manifest needs operator version >= " ++ (Version.mk 2 0 0 [] []).String ++
        ", this operator is version " ++ (Version.mk 1 0 0 [] []).String =
      "manifest needs operator version >= 2.0.0, this operator is version 1.0.0" ∧
    ((versionCheck.mk { handle := 0 } ⟨1, 0, 0, [], []⟩).VersionCheck exampleTarget
        { Items := [annotated "2.0.0"] }).ok = false ∧
    ((versionCheck.mk { handle := 0 } ⟨1, 0, 0, [], []⟩).VersionCheck exampleTarget
        { Items := [annotated "2.0.0"] }).err =
      some (.notQualified (Version.mk 2 0 0 [] []).String) ∧
    ((versionCheck.mk { handle := 0 } ⟨1, 0, 0, [], []⟩).VersionCheck exampleTarget
        { Items := [annotated "2.0.0"] }).src.setCommonStatusCalls =
      exampleTarget.setCommonStatusCalls ++
        [{ Healthy := false,
           Errors := ["manifest needs operator version >= " ++ (Version.mk 2 0 0 [] []).String ++
             ", this operator is version " ++ (Version.mk 1 0 0 [] []).String] }] ∧
    ((versionCheck.mk { handle := 0 } ⟨1, 0, 0, [], []⟩).VersionCheck exampleTarget
        { Items := [annotated "2.0.0"] }).src.status =
      { Healthy := false,
        Errors := ["manifest needs operator version >= " ++ (Version.mk 2 0 0 [] []).String ++
          ", this operator is version " ++ (Version.mk 1 0 0 [] []).String] } :=
  ⟨by decide, by decide, by decide,
    C5_too_old_reports_status (versionCheck.mk { handle := 0 } ⟨1, 0, 0, [], []⟩) exampleTarget
      { Items := [annotated "2.0.0"] } ⟨2, 0, 0, [], []⟩ rfl (by decide) (by decide)⟩

/-- C6 (amended): whenever `VersionCheck` fails because the controller version is below the
required version (target with the status-reporting capability), the text of the returned
error is `operator not qualified, manifest needs operator version >= (required)`; it names
the same required version as the message written into the target status's `Errors` list,
`manifest needs operator version >= (required), this operator is version (controller)`,
and is a different text. -/
theorem C6_error_text_and_status_message (p : versionCheck) (src : DeclarativeObject)
    (objs : Objects) (required : Version)
    (hscan : scanItems objs.Items Version.zero = .ok required)
    (hgt : required.GT p.operatorVersion = true)
    (hc : src.isCommonObject = true) :
    ∃ e, (p.VersionCheck src objs).err = some e ∧
      (∀ parseText quote, e.Error parseText quote =
        "operator not qualified, manifest needs operator version >= " ++ required.String) ∧
      (p.VersionCheck src objs).src.status.Errors =
        ["manifest needs operator version >= " ++ required.String ++
          ", this operator is version " ++ p.operatorVersion.String] ∧
      (∀ parseText quote,
        e.Error parseText quote ∉ (p.VersionCheck src objs).src.status.Errors) := by
  have hge : p.operatorVersion.GTE required = false :=
    (Version.GT_iff_not_GTE required p.operatorVersion).mp hgt
  rw [VersionCheck_of_tooOld p src objs required hscan hge hc]
  refine ⟨.notQualified required.String, rfl, fun _ _ => rfl, rfl, ?_⟩
  intro parseText quote hmem
  simp only [DeclarativeObject.SetCommonStatus, statusMessage, List.mem_singleton,
    GoError.Error] at hmem
  rw [String.append_assoc] at hmem
  exact notQualified_text_ne_statusMessage _ _ hmem

/-- C6, concrete check of the amended statement: controller `1.0.0`, required `2.0.0`. -/
theorem C6_error_text_and_status_message_witness :
    ∃ e, ((versionCheck.mk { handle := 0 } ⟨1, 0, 0, [], []⟩).VersionCheck exampleTarget
        { Items := [annotated "2.0.0"] }).err = some e ∧
      (∀ parseText quote, e.Error parseText quote =
        "operator not qualified, manifest needs operator version >= " ++
          (Version.mk 2 0 0 [] []).String) ∧
      ((versionCheck.mk { handle := 0 } ⟨1, 0, 0, [], []⟩).VersionCheck exampleTarget
        { Items := [annotated "2.0.0"] }).src.status.Errors =
        ["manifest needs operator version >= " ++ (Version.mk 2 0 0 [] []).String ++
          ", this operator is version " ++ (Version.mk 1 0 0 [] []).String] ∧
      (∀ parseText quote,
        e.Error parseText quote ∉
          ((versionCheck.mk { handle := 0 } ⟨1, 0, 0, [], []⟩).VersionCheck exampleTarget
            { Items := [annotated "2.0.0"] }).src.status.Errors) :=
  C6_error_text_and_status_message (versionCheck.mk { handle := 0 } ⟨1, 0, 0, [], []⟩)
    exampleTarget { Items := [annotated "2.0.0"] } ⟨2, 0, 0, [], []⟩ rfl (by decide) (by decide)

/-- C6 as stated fails: with controller `1.0.0` and required `2.0.0` the returned error
reads `operator not qualified, manifest needs operator version >= 2.0.0`, while the message
written into the status reads `manifest needs operator version >= 2.0.0, this operator is
version 1.0.0`. -/
theorem C6_counterexample :
    ((versionCheck.mk { handle := 0 } ⟨1, 0, 0, [], []⟩).VersionCheck exampleTarget
        { Items := [annotated "2.0.0"] }).err = some (.notQualified "2.0.0") ∧
    (GoError.notQualified "2.0.0").Error (fun _ => "") (fun s => s) =
      "operator not qualified, manifest needs operator version >= 2.0.0" ∧
    ((versionCheck.mk { handle := 0 } ⟨1, 0, 0, [], []⟩).VersionCheck exampleTarget
        { Items := [annotated "2.0.0"] }).src.status.Errors =
      ["manifest needs operator version >= 2.0.0, this operator is version 1.0.0"] ∧
    (GoError.notQualified "2.0.0").Error (fun _ => "") (fun s => s) ≠
      "manifest needs operator version >= 2.0.0, this operator is version 1.0.0" := by
  decide

/-- C7: for every target without the status-reporting capability and every manifest whose
annotations all parse, so that the loop computes a required version, with that version
above the controller version, `VersionCheck` returns false with the non-nil type-mismatch
error naming the concrete type of the target, which differs from every version-mismatch
error both as a value and in its text, and the target is left exactly as it was (no call
of `SetCommonStatus`). -/
theorem C7_not_common_object (p : versionCheck) (src : DeclarativeObject)
    (objs : Objects) (required : Version)
    (hscan : scanItems objs.Items Version.zero = .ok required)
    (hgt : required.GT p.operatorVersion = true)
    (hc : src.isCommonObject = false) :
    (p.VersionCheck src objs).ok = false ∧
    (p.VersionCheck src objs).err = some (.notCommonObject src.typeName) ∧
    (∀ parseText quote, (GoError.notCommonObject src.typeName).Error parseText quote =
      "object " ++ src.typeName ++ " was not an addonsv1alpha1.CommonObject") ∧
    (∀ r : String, GoError.notCommonObject src.typeName ≠ GoError.notQualified r) ∧
    (∀ (r : String) parseText quote,
      (GoError.notCommonObject src.typeName).Error parseText quote ≠
        (GoError.notQualified r).Error parseText quote) ∧
    (p.VersionCheck src objs).src = src := by
  have hge : p.operatorVersion.GTE required = false :=
    (Version.GT_iff_not_GTE required p.operatorVersion).mp hgt
  rw [VersionCheck_of_notCommonObject p src objs required hscan hge hc]
  refine ⟨rfl, rfl, fun _ _ => rfl, ?_, ?_, rfl⟩
  · intro r h
    cases h
  · intro r parseText quote
    exact notCommonObject_text_ne_notQualified_text src.typeName r

/-- C7, concrete check: controller `1.0.0`, required `2.0.0`, a target of type
`*v1.ConfigMap` that cannot report a status. -/
theorem C7_not_common_object_witness :
    ((versionCheck.mk { handle := 0 } ⟨1, 0, 0, [], []⟩).VersionCheck exampleOther
        { Items := [annotated "2.0.0"] }).ok = false ∧
    ((versionCheck.mk { handle := 0 } ⟨1, 0, 0, [], []⟩).VersionCheck exampleOther
        { Items := [annotated "2.0.0"] }).err = some (.notCommonObject exampleOther.typeName) ∧
    (∀ parseText quote, (GoError.notCommonObject exampleOther.typeName).Error parseText quote =
      "object " ++ exampleOther.typeName ++ " was not an addonsv1alpha1.CommonObject") ∧
    (∀ r : String, GoError.notCommonObject exampleOther.typeName ≠ GoError.notQualified r) ∧
    (∀ (r : String) parseText quote,
      (GoError.notCommonObject exampleOther.typeName).Error parseText quote ≠
        (GoError.notQualified r).Error parseText quote) ∧
    ((versionCheck.mk { handle := 0 } ⟨1, 0, 0, [], []⟩).VersionCheck exampleOther
        { Items := [annotated "2.0.0"] }).src = exampleOther :=
  C7_not_common_object (versionCheck.mk { handle := 0 } ⟨1, 0, 0, [], []⟩) exampleOther
    { Items := [annotated "2.0.0"] } ⟨2, 0, 0, [], []⟩ rfl (by decide) (by decide)

/-- C8: the success path has no side effect: for every gate, target (with or without the
status-reporting capability) and manifest, if the loop computes a required version and the
controller version is at or above it, `VersionCheck` returns exactly `(true, nil)` and the
target after the call is the target before the call; conversely, whenever `VersionCheck`
returns true, its error is nil and the target is unchanged. -/
theorem C8_success_path_is_pure (p : versionCheck) (src : DeclarativeObject)
    (objs : Objects) :
    (∀ required, scanItems objs.Items Version.zero = .ok required →
      p.operatorVersion.GTE required = true →
      p.VersionCheck src objs = { ok := true, err := none, src := src, p := p }) ∧
    ((p.VersionCheck src objs).ok = true →
      (p.VersionCheck src objs).err = none ∧ (p.VersionCheck src objs).src = src) := by
  refine ⟨fun required hscan hge => VersionCheck_of_pass p src objs required hscan hge, ?_⟩
  intro hok
  cases hscan : scanItems objs.Items Version.zero with
  | error e =>
    rw [VersionCheck_of_error p src objs e hscan] at hok
    cases hok
  | ok required =>
    have hge := (VersionCheck_ok_iff p src objs required hscan).mp hok
    rw [VersionCheck_of_pass p src objs required hscan hge]
    exact ⟨rfl, rfl⟩

/-- C8, concrete check: controller `2.3.1` on a manifest requiring `2.3.1`, with a target
that cannot report a status. -/
theorem C8_success_path_is_pure_witness :
    (versionCheck.mk { handle := 0 } ⟨2, 3, 1, [], []⟩).VersionCheck exampleOther
        { Items := [annotated "1.0.0", annotated "2.3.1"] } =
      { ok := true, err := none, src := exampleOther,
        p := versionCheck.mk { handle := 0 } ⟨2, 3, 1, [], []⟩ } ∧
    (((versionCheck.mk { handle := 0 } ⟨2, 3, 1, [], []⟩).VersionCheck exampleOther
        { Items := [annotated "1.0.0", annotated "2.3.1"] }).err = none ∧
      ((versionCheck.mk { handle := 0 } ⟨2, 3, 1, [], []⟩).VersionCheck exampleOther
        { Items := [annotated "1.0.0", annotated "2.3.1"] }).src = exampleOther) :=
  ⟨(C8_success_path_is_pure (versionCheck.mk { handle := 0 } ⟨2, 3, 1, [], []⟩) exampleOther
      { Items := [annotated "1.0.0", annotated "2.3.1"] }).1 ⟨2, 3, 1, [], []⟩ rfl (by decide),
   (C8_success_path_is_pure (versionCheck.mk { handle := 0 } ⟨2, 3, 1, [], []⟩) exampleOther
      { Items := [annotated "1.0.0", annotated "2.3.1"] }).2 (by decide)⟩

/-- A printable character other than the double quote and the backslash stands for itself
in a quoted text. -/
theorem quoteRunes_of_plain (wide : Char → Bool) (l : List Char)
    (h : ∀ c ∈ l, strconv.IsPrint wide c = true ∧ c ≠ '"' ∧ c ≠ '\\') :
    strconv.quoteRunes wide l = l := by
  induction l with
  | nil => rfl
  | cons c cs ih =>
    obtain ⟨h1, h2, h3⟩ := h c (List.mem_cons_self _ _)
    simp only [strconv.quoteRunes, strconv.appendEscapedRune, h1, h2, h3, or_self, if_false,
      if_true]
    rw [ih (fun d hd => h d (List.mem_cons_of_mem _ hd))]
    rfl

/-- C9 (amended): `NewVersionCheck` returns an error (and no gate) if and only if its
version string does not parse as a semantic version; that error carries the offending
string and the parse failure, and its text is `unable to parse operator version `, the
quoted form (`%q`) of the string, `: ` and the text of the parse failure; the text contains
the string itself whenever every character of the string is printable and is neither the
double quote nor the backslash; otherwise `NewVersionCheck` returns the gate whose
`operatorVersion` is the parsed value of the string, and `VersionCheck` returns the gate as
it received it. -/
theorem C9_NewVersionCheck_parses_once (cl : client.Client) (s : String)
    (p : versionCheck) (src : DeclarativeObject) (objs : Objects) :
    ((∃ err, NewVersionCheck cl s = .error err) ↔ (∃ e, Parse s = .error e)) ∧
    (∀ e, Parse s = .error e →
      NewVersionCheck cl s = .error (.unableToParse s e) ∧
      (∀ parseText quote, (GoError.unableToParse s e).Error parseText quote =
        "unable to parse operator version " ++ quote s ++ ": " ++ parseText e) ∧
      (∀ wide, (GoError.unableToParse s e).errorText wide =
        "unable to parse operator version " ++ strconv.Quote wide s ++ ": " ++ e.Error wide) ∧
      (∀ wide, (∀ c ∈ s.toList, strconv.IsPrint wide c = true ∧ c ≠ '"' ∧ c ≠ '\\') →
        s.toList <:+: ((GoError.unableToParse s e).errorText wide).toList)) ∧
    (∀ v, Parse s = .ok v →
      NewVersionCheck cl s = .ok { client := cl, operatorVersion := v }) ∧
    (p.VersionCheck src objs).p = p := by
  refine ⟨?_, ?_, ?_, ?_⟩
  · cases hp : Parse s with
    | error e => simp [NewVersionCheck, hp]
    | ok v => simp [NewVersionCheck, hp]
  · intro e hp
    refine ⟨by simp [NewVersionCheck, hp], fun _ _ => rfl, fun _ => rfl, ?_⟩
    intro wide hplain
    refine ⟨"unable to parse operator version ".toList ++ ['"'],
      '"' :: (": ".toList ++ (e.Error wide).toList), ?_⟩
    simp only [GoError.errorText, GoError.Error, strconv.Quote, String.toList,
      String.data_append, quoteRunes_of_plain wide s.data hplain]
    simp
  · intro v hp
    simp [NewVersionCheck, hp]
  · unfold versionCheck.VersionCheck
    split
    · rfl
    · split_ifs <;> rfl

/-- C9, concrete check of the amended statement: `not-a-version` is refused with the error
that carries it, whose text contains it; `1.2.3` gives the gate holding `1.2.3`, and a
failing call leaves that gate as it was. -/
theorem C9_NewVersionCheck_parses_once_witness :
    (NewVersionCheck { handle := 7 } "not-a-version" =
        .error (.unableToParse "not-a-version" .noMajorMinorPatch) ∧
      (∀ parseText quote,
        (GoError.unableToParse "not-a-version" .noMajorMinorPatch).Error parseText quote =
          "unable to parse operator version " ++ quote "not-a-version" ++ ": " ++
            parseText .noMajorMinorPatch) ∧
      (∀ wide, (GoError.unableToParse "not-a-version" .noMajorMinorPatch).errorText wide =
        "unable to parse operator version " ++ strconv.Quote wide "not-a-version" ++ ": " ++
          ParseError.noMajorMinorPatch.Error wide) ∧
      (∀ wide,
        (∀ c ∈ "not-a-version".toList, strconv.IsPrint wide c = true ∧ c ≠ '"' ∧ c ≠ '\\') →
        "not-a-version".toList <:+:
          ((GoError.unableToParse "not-a-version" .noMajorMinorPatch).errorText wide).toList)) ∧
    (GoError.unableToParse "not-a-version" .noMajorMinorPatch).errorText (fun _ => false) =
      "unable to parse operator version \"not-a-version\": No Major.Minor.Patch elements found" ∧
    "not-a-version".toList <:+:
      ((GoError.unableToParse "not-a-version" .noMajorMinorPatch).errorText
        (fun _ => false)).toList ∧
    NewVersionCheck { handle := 7 } "1.2.3" =
      .ok { client := { handle := 7 }, operatorVersion := ⟨1, 2, 3, [], []⟩ } ∧
    ((versionCheck.mk { handle := 7 } ⟨1, 2, 3, [], []⟩).VersionCheck exampleTarget
        { Items := [annotated "2.0.0"] }).p = versionCheck.mk { handle := 7 } ⟨1, 2, 3, [], []⟩ :=
  ⟨(C9_NewVersionCheck_parses_once { handle := 7 } "not-a-version"
      (versionCheck.mk { handle := 7 } ⟨1, 2, 3, [], []⟩) exampleTarget
      { Items := [annotated "2.0.0"] }).2.1 .noMajorMinorPatch rfl,
   by decide,
   ((C9_NewVersionCheck_parses_once { handle := 7 } "not-a-version"
      (versionCheck.mk { handle := 7 } ⟨1, 2, 3, [], []⟩) exampleTarget
      { Items := [annotated "2.0.0"] }).2.1 .noMajorMinorPatch rfl).2.2.2 (fun _ => false)
        (by decide),
   (C9_NewVersionCheck_parses_once { handle := 7 } "1.2.3"
      (versionCheck.mk { handle := 7 } ⟨1, 2, 3, [], []⟩) exampleTarget
      { Items := [annotated "2.0.0"] }).2.2.1 ⟨1, 2, 3, [], []⟩ rfl,
   (C9_NewVersionCheck_parses_once { handle := 7 } "1.2.3"
      (versionCheck.mk { handle := 7 } ⟨1, 2, 3, [], []⟩) exampleTarget
      { Items := [annotated "2.0.0"] }).2.2.2⟩

/-- C9 as stated fails: the version string `1.0.0` followed by a line feed does not parse,
and the text of the error that `NewVersionCheck` returns shows the line feed as the escape
backslash-`n`, so the text does not contain the offending string.  (All characters involved
are below U+0100, so the character tables play no part.) -/
theorem C9_counterexample :
    Parse "1.0.0\n" = .error (.invalidPatch "0\n") ∧
    NewVersionCheck { handle := 0 } "1.0.0\n" =
      .error (.unableToParse "1.0.0\n" (.invalidPatch "0\n")) ∧
    (GoError.unableToParse "1.0.0\n" (.invalidPatch "0\n")).errorText (fun _ => false) =
      "unable to parse operator version \"1.0.0\\n\": Invalid character(s) found in patch number \"0\\n\"" ∧
    ¬ ("1.0.0\n".toList <:+:
      ((GoError.unableToParse "1.0.0\n" (.invalidPatch "0\n")).errorText
        (fun _ => false)).toList) ∧
    (GoError.unableToParse "1.0.0\n" (.invalidPatch "0\n")).errorText (fun _ => true) =
      (GoError.unableToParse "1.0.0\n" (.invalidPatch "0\n")).errorText (fun _ => false) :=
  ⟨rfl, rfl, by decide,
    fun h => absurd (h.subset (by decide : '\n' ∈ "1.0.0\n".toList)) (by decide),
    by decide⟩

/-- The loop reads each object only through its value for the annotation key. -/
theorem scanItems_congr (items1 items2 : List Object) (m : Version)
    (h : items1.map (fun obj => obj.annotations.lookup minOperatorVersionKey) =
      items2.map (fun obj => obj.annotations.lookup minOperatorVersionKey)) :
    scanItems items1 m = scanItems items2 m := by
  induction items1 generalizing items2 m with
  | nil =>
    cases items2 with
    | nil => rfl
    | cons o2 r2 => simp at h
  | cons o1 r1 ih =>
    cases items2 with
    | nil => simp at h
    | cons o2 r2 =>
      simp only [List.map_cons, List.cons.injEq] at h
      obtain ⟨hhead, htail⟩ := h
      cases hl : o2.annotations.lookup minOperatorVersionKey with
      | none =>
        rw [scanItems_cons_none o1 r1 m (hhead.trans hl), scanItems_cons_none o2 r2 m hl]
        exact ih r2 m htail
      | some str =>
        cases hp : Parse str with
        | error e =>
          rw [scanItems_cons_error o1 r1 m str e (hhead.trans hl) hp,
            scanItems_cons_error o2 r2 m str e hl hp]
        | ok v =>
          rw [scanItems_cons_ok o1 r1 m str v (hhead.trans hl) hp,
            scanItems_cons_ok o2 r2 m str v hl hp]
          exact ih r2 _ htail

/-- C10: the outcome of `VersionCheck` depends on the manifest only through each object's
value, or absence of a value, for the exact key `addons.k8s.io/min-operator-version`: two
manifests of the same length whose objects agree position by position on that lookup give,
with the same gate and target, the same verdict, the same error and the same target after
the call, however the objects differ otherwise. -/
theorem C10_only_the_annotation_key_matters (p : versionCheck) (src : DeclarativeObject)
    (objs1 objs2 : Objects)
    (h : objs1.Items.map (fun obj => obj.annotations.lookup minOperatorVersionKey) =
      objs2.Items.map (fun obj => obj.annotations.lookup minOperatorVersionKey)) :
    p.VersionCheck src objs1 = p.VersionCheck src objs2 := by
  unfold versionCheck.VersionCheck
  rw [scanItems_congr objs1.Items objs2.Items Version.zero h]

/-- C10, concrete check: the second manifest adds the unprefixed key
`min-operator-version = 9.9.9`, another key and other content to the objects of the first;
the outcome is the same. -/
theorem C10_only_the_annotation_key_matters_witness :
    (versionCheck.mk { handle := 0 } ⟨1, 0, 0, [], []⟩).VersionCheck exampleTarget
        { Items := [annotated "2.0.0",
                    { Group := "", Kind := "Service", Name := "s", content := "", annotations := [] }] } =
      (versionCheck.mk { handle := 0 } ⟨1, 0, 0, [], []⟩).VersionCheck exampleTarget
        { Items := [{ Group := "batch", Kind := "Job", Name := "j", content := "spec",
                      annotations := [("min-operator-version", "9.9.9"),
                        (minOperatorVersionKey, "2.0.0"), ("addons.k8s.io/min-operator-versio", "7.0.0")] },
                    unannotated] } :=
  C10_only_the_annotation_key_matters (versionCheck.mk { handle := 0 } ⟨1, 0, 0, [], []⟩)
    exampleTarget _ _ (by decide)

end status

/-! Section: Versions of equal precedence and their texts -/

namespace semver

theorem Version.Compare_eq_zero_of_GTE (a b : Version) (h1 : a.GTE b = true)
    (h2 : b.GTE a = true) : a.Compare b = 0 := by
  have s := Version.Compare_antisymm a b
  simp only [Version.GTE, decide_eq_true_eq] at h1 h2
  omega

theorem prString_eq_of_Compare_eq_zero (a b : PRVersion) (h : a.Compare b = 0) :
    a.String = b.String := by
  have hn := (PRVersion.prCompare_nonneg_iff a b).mp (by omega)
  have hn2 := (PRVersion.prCompare_nonneg_iff b a).mp (by
    have s := PRVersion.prCompare_antisymm a b
    omega)
  unfold PRVersion.String
  rcases hn with ⟨x1, x2⟩ | ⟨x1, x2, x3⟩ | ⟨x1, x2, x3⟩ <;>
  rcases hn2 with ⟨y1, y2⟩ | ⟨y1, y2, y3⟩ | ⟨y1, y2, y3⟩ <;> simp_all
  · have : a.VersionNum = b.VersionNum := by omega
    rw [this]
  · exact String.ext (le_antisymm y3 x3)

theorem comparePre_eq_zero_map_String (p q : List PRVersion) (h : comparePre p q = 0) :
    p.map PRVersion.String = q.map PRVersion.String := by
  induction p generalizing q with
  | nil =>
    cases q with
    | nil => rfl
    | cons b bs => simp [comparePre] at h
  | cons a as ih =>
    cases q with
    | nil => simp [comparePre] at h
    | cons b bs =>
      simp only [comparePre] at h
      by_cases h1 : a.Compare b = 0
      · simp only [h1, if_true] at h
        simp only [List.map_cons]
        rw [prString_eq_of_Compare_eq_zero a b h1, ih bs h]
      · simp only [h1, if_false] at h
        split_ifs at h <;> omega

/-- The text of a version up to and including its pre-release part depends on the
pre-release identifiers only through their texts. -/
theorem version_String_congr (a b : Version) (hM : a.Major = b.Major) (hm : a.Minor = b.Minor)
    (hp : a.Patch = b.Patch) (hpre : a.Pre.map PRVersion.String = b.Pre.map PRVersion.String)
    (hb : a.Build = b.Build) : a.String = b.String := by
  unfold Version.String
  rw [hM, hm, hp, hb]
  have hfold : ∀ (l : List PRVersion) (init : String),
      l.foldl (fun acc pre => acc ++ "." ++ pre.String) init =
        (l.map PRVersion.String).foldl (fun acc s => acc ++ "." ++ s) init := by
    intro l
    induction l with
    | nil => intro init; rfl
    | cons x xs ih => intro init; simp only [List.foldl_cons, List.map_cons, ih]
  cases hpa : a.Pre with
  | nil =>
    cases hpb : b.Pre with
    | nil => rfl
    | cons y ys => rw [hpa, hpb] at hpre; simp at hpre
  | cons x xs =>
    cases hpb : b.Pre with
    | nil => rw [hpa, hpb] at hpre; simp at hpre
    | cons y ys =>
      rw [hpa, hpb] at hpre
      simp only [List.map_cons, List.cons.injEq] at hpre
      simp only [hfold, hpre.1, hpre.2]

/-- Two versions of equal precedence have the same text as soon as they have the same
build metadata. -/
theorem version_String_eq_of_Compare_eq_zero (a b : Version) (h : a.Compare b = 0)
    (hb : a.Build = b.Build) : a.String = b.String := by
  by_cases hM : a.Major = b.Major
  · by_cases hm : a.Minor = b.Minor
    · by_cases hp : a.Patch = b.Patch
      · rw [Version.Compare_of_eq a b hM hm hp] at h
        refine version_String_congr a b hM hm hp ?_ hb
        cases hpa : a.Pre with
        | nil =>
          cases hpb : b.Pre with
          | nil => rfl
          | cons y ys => simp [hpa, hpb] at h
        | cons x xs =>
          cases hpb : b.Pre with
          | nil => simp [hpa, hpb] at h
          | cons y ys =>
            simp only [hpa, hpb] at h
            simp only [List.cons_ne_nil, false_and, if_false] at h
            exact comparePre_eq_zero_map_String _ _ h
      · rw [Version.Compare_of_Patch_ne a b hM hm hp] at h
        split_ifs at h <;> omega
    · rw [Version.Compare_of_Minor_ne a b hM hm] at h
      split_ifs at h <;> omega
  · rw [Version.Compare_of_Major_ne a b hM] at h
    split_ifs at h <;> omega

end semver

/-! Section: The claims on order, ties, fail-fast and monotonicity -/

namespace status

open semver manifest addonsv1alpha1 declarative

/-- Annotation values that the parser accepts each parse to a version. -/
theorem all_parse_of_toBool (items : List Object)
    (h : ∀ s ∈ annotationValues items, (Parse s).toBool = true) :
    ∀ s ∈ annotationValues items, ∃ v, Parse s = .ok v := by
  intro s hs
  have := h s hs
  cases hp : Parse s with
  | ok v => exact ⟨v, rfl⟩
  | error e => rw [hp] at this; simp [Except.toBool] at this

/-- The verdict in terms of the annotation values alone: the call returns true exactly when
every annotation value parses and the controller version is at or above `0.0.0` and every
parsed value. -/
theorem VersionCheck_ok_iff_all (p : versionCheck) (src : DeclarativeObject) (objs : Objects) :
    (p.VersionCheck src objs).ok = true ↔
      ((∀ s ∈ annotationValues objs.Items, ∃ v, Parse s = .ok v) ∧
        p.operatorVersion.GTE Version.zero = true ∧
        ∀ v ∈ parsedValues objs.Items, p.operatorVersion.GTE v = true) := by
  cases hscan : scanItems objs.Items Version.zero with
  | error e =>
    rw [VersionCheck_of_error p src objs e hscan]
    constructor
    · intro h; cases h
    · rintro ⟨hall, _⟩
      obtain ⟨s, hs, e1, he1⟩ := (scanItems_error_iff objs.Items Version.zero).mp ⟨e, hscan⟩
      obtain ⟨v, hv⟩ := hall s hs
      rw [hv] at he1
      cases he1
  | ok r =>
    rw [VersionCheck_ok_iff p src objs r hscan, GTE_scanItems_iff objs.Items Version.zero r _ hscan]
    constructor
    · rintro ⟨h1, h2⟩
      refine ⟨?_, h1, h2⟩
      intro s hs
      cases hp : Parse s with
      | ok v => exact ⟨v, rfl⟩
      | error e1 =>
        obtain ⟨e2, he2⟩ := (scanItems_error_iff objs.Items Version.zero).mpr ⟨s, hs, e1, hp⟩
        rw [hscan] at he2
        cases he2
    · rintro ⟨_, h1, h2⟩
      exact ⟨h1, h2⟩

theorem annotationValues_perm (items1 items2 : List Object) (h : items1.Perm items2) :
    (annotationValues items1).Perm (annotationValues items2) :=
  List.Perm.filterMap _ h

theorem parsedValues_perm (items1 items2 : List Object) (h : items1.Perm items2) :
    (parsedValues items1).Perm (parsedValues items2) :=
  List.Perm.filterMap _ (annotationValues_perm items1 items2 h)

/-- The verdict of one manifest carries over to every manifest whose annotation values and
parsed values are among those of the first. -/
theorem VersionCheck_ok_of_subset (p p2 : versionCheck) (src src2 : DeclarativeObject)
    (objs objs2 : Objects)
    (hge : p2.operatorVersion.GTE p.operatorVersion = true)
    (hsub : ∀ s ∈ annotationValues objs2.Items, s ∈ annotationValues objs.Items)
    (hsubv : ∀ v ∈ parsedValues objs2.Items, v ∈ parsedValues objs.Items)
    (hok : (p.VersionCheck src objs).ok = true) :
    (p2.VersionCheck src2 objs2).ok = true := by
  rw [VersionCheck_ok_iff_all] at hok ⊢
  obtain ⟨h1, h2, h3⟩ := hok
  exact ⟨fun s hs => h1 s (hsub s hs), Version.GTE_trans _ _ _ hge h2,
    fun v hv => Version.GTE_trans _ _ _ hge (h3 v (hsubv v hv))⟩

/-- C11: object order is irrelevant to the verdict: for every gate, every target and every
two manifests whose object sequences are permutations of each other, `VersionCheck` returns
the same boolean verdict; when some annotation value of the manifest does not parse, both
calls return false. -/
theorem C11_verdict_ignores_order (p : versionCheck) (src : DeclarativeObject)
    (objs1 objs2 : Objects) (hperm : objs1.Items.Perm objs2.Items) :
    (p.VersionCheck src objs1).ok = (p.VersionCheck src objs2).ok ∧
    ((∃ s ∈ annotationValues objs1.Items, ∃ e, Parse s = .error e) →
      (p.VersionCheck src objs1).ok = false ∧ (p.VersionCheck src objs2).ok = false) := by
  have ha := annotationValues_perm _ _ hperm
  have hv := parsedValues_perm _ _ hperm
  have hiff : (p.VersionCheck src objs1).ok = true ↔ (p.VersionCheck src objs2).ok = true := by
    constructor
    · exact VersionCheck_ok_of_subset p p src src objs1 objs2 (Version.GTE_refl _)
        (fun s hs => ha.symm.subset hs) (fun v hw => hv.symm.subset hw)
    · exact VersionCheck_ok_of_subset p p src src objs2 objs1 (Version.GTE_refl _)
        (fun s hs => ha.subset hs) (fun v hw => hv.subset hw)
  refine ⟨Bool.eq_iff_iff.mpr hiff, ?_⟩
  rintro ⟨s, hs, e, he⟩
  have h1 : ¬ (p.VersionCheck src objs1).ok = true := by
    rw [VersionCheck_ok_iff_all]
    rintro ⟨hall, _⟩
    obtain ⟨v, hv1⟩ := hall s hs
    rw [hv1] at he
    cases he
  have h2 : ¬ (p.VersionCheck src objs2).ok = true := fun h => h1 (hiff.mpr h)
  exact ⟨by simpa using h1, by simpa using h2⟩

/-- C11, concrete check: two valid annotations and the malformed value `x`, in two
orders. -/
theorem C11_verdict_ignores_order_witness :
    ((versionCheck.mk { handle := 0 } ⟨2, 0, 0, [], []⟩).VersionCheck exampleTarget
        { Items := [annotated "1.0.0", annotated "x", annotated "3.0.0"] }).ok =
      ((versionCheck.mk { handle := 0 } ⟨2, 0, 0, [], []⟩).VersionCheck exampleTarget
        { Items := [annotated "3.0.0", annotated "1.0.0", annotated "x"] }).ok ∧
    ((versionCheck.mk { handle := 0 } ⟨2, 0, 0, [], []⟩).VersionCheck exampleTarget
        { Items := [annotated "1.0.0", annotated "x", annotated "3.0.0"] }).ok = false ∧
    ((versionCheck.mk { handle := 0 } ⟨2, 0, 0, [], []⟩).VersionCheck exampleTarget
        { Items := [annotated "3.0.0", annotated "1.0.0", annotated "x"] }).ok = false :=
  ⟨(C11_verdict_ignores_order (versionCheck.mk { handle := 0 } ⟨2, 0, 0, [], []⟩) exampleTarget
      { Items := [annotated "1.0.0", annotated "x", annotated "3.0.0"] }
      { Items := [annotated "3.0.0", annotated "1.0.0", annotated "x"] } (by decide)).1,
   (C11_verdict_ignores_order (versionCheck.mk { handle := 0 } ⟨2, 0, 0, [], []⟩) exampleTarget
      { Items := [annotated "1.0.0", annotated "x", annotated "3.0.0"] }
      { Items := [annotated "3.0.0", annotated "1.0.0", annotated "x"] } (by decide)).2
        ⟨"x", by decide, .noMajorMinorPatch, rfl⟩⟩

/-- The outcome of `VersionCheck` depends on the result of the loop only through its
precedence and its text. -/
theorem VersionCheck_eq_of_scan (p : versionCheck) (src : DeclarativeObject)
    (objs1 objs2 : Objects) (r1 r2 : Version)
    (h1 : scanItems objs1.Items Version.zero = .ok r1)
    (h2 : scanItems objs2.Items Version.zero = .ok r2)
    (hge : p.operatorVersion.GTE r1 = p.operatorVersion.GTE r2)
    (hstr : r1.String = r2.String) :
    p.VersionCheck src objs1 = p.VersionCheck src objs2 := by
  cases hg : p.operatorVersion.GTE r1 with
  | true =>
    rw [VersionCheck_of_pass p src objs1 r1 h1 hg,
      VersionCheck_of_pass p src objs2 r2 h2 (hge ▸ hg)]
  | false =>
    cases hc : src.isCommonObject with
    | false =>
      rw [VersionCheck_of_notCommonObject p src objs1 r1 h1 hg hc,
        VersionCheck_of_notCommonObject p src objs2 r2 h2 (hge ▸ hg) hc]
    | true =>
      rw [VersionCheck_of_tooOld p src objs1 r1 h1 hg hc,
        VersionCheck_of_tooOld p src objs2 r2 h2 (hge ▸ hg) hc]
      simp only [statusMessage, hstr]

/-- C12 (amended): for every two manifests with all annotations valid that differ only by
reordering objects (in particular objects whose annotated versions compare equal),
`VersionCheck` with the same gate and target produces the same verdict, and the required
versions computed for the two manifests are equal in precedence and have the same text up
to their build metadata; when they also have the same build metadata, the status written
to the target and the error are the same. -/
theorem C12_ties_agree_up_to_build_metadata (p : versionCheck) (src : DeclarativeObject)
    (objs1 objs2 : Objects) (hperm : objs1.Items.Perm objs2.Items)
    (hparse : ∀ s ∈ annotationValues objs1.Items, (Parse s).toBool = true) :
    ∃ r1 r2,
      scanItems objs1.Items Version.zero = .ok r1 ∧
      scanItems objs2.Items Version.zero = .ok r2 ∧
      r1.Compare r2 = 0 ∧
      Version.String { r1 with Build := [] } = Version.String { r2 with Build := [] } ∧
      (p.VersionCheck src objs1).ok = (p.VersionCheck src objs2).ok ∧
      (r1.Build = r2.Build → p.VersionCheck src objs1 = p.VersionCheck src objs2) := by
  have ha := annotationValues_perm _ _ hperm
  have hv := parsedValues_perm _ _ hperm
  have hall1 := all_parse_of_toBool objs1.Items hparse
  have hall2 : ∀ s ∈ annotationValues objs2.Items, ∃ v, Parse s = .ok v :=
    fun s hs => hall1 s (ha.symm.subset hs)
  obtain ⟨r1, h1⟩ := scanItems_ok_of_all_parse objs1.Items Version.zero hall1
  obtain ⟨r2, h2⟩ := scanItems_ok_of_all_parse objs2.Items Version.zero hall2
  obtain ⟨a1, a2, a3⟩ := scanItems_ok_max objs1.Items Version.zero r1 h1
  obtain ⟨b1, b2, b3⟩ := scanItems_ok_max objs2.Items Version.zero r2 h2
  have h12 : r1.GTE r2 = true := by
    rcases b3 with b3 | b3
    · rw [b3]; exact a1
    · exact a2 r2 (hv.symm.subset b3)
  have h21 : r2.GTE r1 = true := by
    rcases a3 with a3 | a3
    · rw [a3]; exact b1
    · exact b2 r1 (hv.subset a3)
  have hcmp := Version.Compare_eq_zero_of_GTE r1 r2 h12 h21
  have hge : p.operatorVersion.GTE r1 = p.operatorVersion.GTE r2 := by
    rw [Bool.eq_iff_iff]
    exact ⟨fun h => Version.GTE_trans _ _ _ h h12, fun h => Version.GTE_trans _ _ _ h h21⟩
  refine ⟨r1, r2, h1, h2, hcmp, ?_, ?_, ?_⟩
  · exact version_String_eq_of_Compare_eq_zero _ _ hcmp rfl
  · rw [Bool.eq_iff_iff, VersionCheck_ok_iff p src objs1 r1 h1,
      VersionCheck_ok_iff p src objs2 r2 h2, hge]
  · intro hb
    exact VersionCheck_eq_of_scan p src objs1 objs2 r1 r2 h1 h2 hge
      (version_String_eq_of_Compare_eq_zero r1 r2 hcmp hb)

/-- C12, concrete check of the amended statement: `1.0.0+a` and `1.0.0+b` in two orders,
controller `0.5.0`. -/
theorem C12_ties_agree_up_to_build_metadata_witness :
    ∃ r1 r2,
      scanItems [annotated "1.0.0+a", annotated "1.0.0+b"] Version.zero = .ok r1 ∧
      scanItems [annotated "1.0.0+b", annotated "1.0.0+a"] Version.zero = .ok r2 ∧
      r1.Compare r2 = 0 ∧
      Version.String { r1 with Build := [] } = Version.String { r2 with Build := [] } ∧
      ((versionCheck.mk { handle := 0 } ⟨0, 5, 0, [], []⟩).VersionCheck exampleTarget
          { Items := [annotated "1.0.0+a", annotated "1.0.0+b"] }).ok =
        ((versionCheck.mk { handle := 0 } ⟨0, 5, 0, [], []⟩).VersionCheck exampleTarget
          { Items := [annotated "1.0.0+b", annotated "1.0.0+a"] }).ok ∧
      (r1.Build = r2.Build →
        (versionCheck.mk { handle := 0 } ⟨0, 5, 0, [], []⟩).VersionCheck exampleTarget
            { Items := [annotated "1.0.0+a", annotated "1.0.0+b"] } =
          (versionCheck.mk { handle := 0 } ⟨0, 5, 0, [], []⟩).VersionCheck exampleTarget
            { Items := [annotated "1.0.0+b", annotated "1.0.0+a"] }) :=
  C12_ties_agree_up_to_build_metadata (versionCheck.mk { handle := 0 } ⟨0, 5, 0, [], []⟩)
    exampleTarget { Items := [annotated "1.0.0+a", annotated "1.0.0+b"] }
    { Items := [annotated "1.0.0+b", annotated "1.0.0+a"] } (by decide) (by decide)

/-- C12 as stated fails: `1.0.0+a` and `1.0.0+b` compare equal, and the two manifests
differ only by the order of the two objects that carry them, yet with controller `0.5.0`
the status written to the target and the returned error name `1.0.0+a` for one order and
`1.0.0+b` for the other. -/
theorem C12_counterexample :
    Parse "1.0.0+a" = .ok ⟨1, 0, 0, [], ["a"]⟩ ∧
    Parse "1.0.0+b" = .ok ⟨1, 0, 0, [], ["b"]⟩ ∧
    (Version.mk 1 0 0 [] ["a"]).Compare ⟨1, 0, 0, [], ["b"]⟩ = 0 ∧
    ((versionCheck.mk { handle := 0 } ⟨0, 5, 0, [], []⟩).VersionCheck exampleTarget
        { Items := [annotated "1.0.0+a", annotated "1.0.0+b"] }).src.status =
      { Healthy := false,
        Errors := ["manifest needs operator version >= 1.0.0+a, this operator is version 0.5.0"] } ∧
    ((versionCheck.mk { handle := 0 } ⟨0, 5, 0, [], []⟩).VersionCheck exampleTarget
        { Items := [annotated "1.0.0+b", annotated "1.0.0+a"] }).src.status =
      { Healthy := false,
        Errors := ["manifest needs operator version >= 1.0.0+b, this operator is version 0.5.0"] } ∧
    ((versionCheck.mk { handle := 0 } ⟨0, 5, 0, [], []⟩).VersionCheck exampleTarget
        { Items := [annotated "1.0.0+a", annotated "1.0.0+b"] }).err =
      some (.notQualified "1.0.0+a") ∧
    ((versionCheck.mk { handle := 0 } ⟨0, 5, 0, [], []⟩).VersionCheck exampleTarget
        { Items := [annotated "1.0.0+b", annotated "1.0.0+a"] }).err =
      some (.notQualified "1.0.0+b") ∧
    (versionCheck.mk { handle := 0 } ⟨0, 5, 0, [], []⟩).VersionCheck exampleTarget
        { Items := [annotated "1.0.0+a", annotated "1.0.0+b"] } ≠
      (versionCheck.mk { handle := 0 } ⟨0, 5, 0, [], []⟩).VersionCheck exampleTarget
        { Items := [annotated "1.0.0+b", annotated "1.0.0+a"] } :=
  ⟨rfl, rfl, by decide, by decide, by decide, by decide, by decide, by decide⟩

/-- The loop stops at the first annotation value that does not parse: what follows it is
not read, and what precedes it, being valid, does not change the error. -/
theorem scanItems_first_malformed (before after : List Object) (obj : Object) (s : String)
    (e : ParseError) (m : Version)
    (hbefore : ∀ s ∈ annotationValues before, ∃ v, Parse s = .ok v)
    (hann : obj.annotations.lookup minOperatorVersionKey = some s)
    (hbad : Parse s = .error e) :
    scanItems (before ++ obj :: after) m = .error e := by
  induction before generalizing m with
  | nil => exact scanItems_cons_error obj after m s e hann hbad
  | cons o rest ih =>
    cases hl : o.annotations.lookup minOperatorVersionKey with
    | none =>
      rw [List.cons_append, scanItems_cons_none o _ m hl]
      exact ih m (fun s1 hs1 => hbefore s1 (by simpa [annotationValues, hl] using hs1))
    | some s0 =>
      have hmem : s0 ∈ annotationValues (o :: rest) := by simp [annotationValues, hl]
      obtain ⟨v, hv⟩ := hbefore s0 hmem
      rw [List.cons_append, scanItems_cons_ok o _ m s0 v hl hv]
      refine ih _ (fun s1 hs1 => hbefore s1 ?_)
      simp only [annotationValues, List.filterMap_cons, hl, List.mem_cons]
      exact Or.inr hs1

/-- C13: fail-fast on the first malformed annotation: when the object `obj` carries a value
that does not parse and every annotated object before it carries a value that parses,
`VersionCheck` returns false with exactly the parse error of `obj`, leaves the target as it
was, and returns the same for every sequence of objects after `obj`, whatever their
annotations. -/
theorem C13_first_malformed_decides (p : versionCheck) (src : DeclarativeObject)
    (before after : List Object) (obj : Object) (s : String) (e : ParseError)
    (hbefore : ∀ s ∈ annotationValues before, (Parse s).toBool = true)
    (hann : obj.annotations.lookup minOperatorVersionKey = some s)
    (hbad : Parse s = .error e) :
    p.VersionCheck src { Items := before ++ obj :: after } =
      { ok := false, err := some (.parse e), src := src, p := p } ∧
    ∀ after2 : List Object,
      p.VersionCheck src { Items := before ++ obj :: after2 } =
        p.VersionCheck src { Items := before ++ obj :: after } := by
  have hb := all_parse_of_toBool before hbefore
  have h1 : ∀ l : List Object, p.VersionCheck src { Items := before ++ obj :: l } =
      { ok := false, err := some (.parse e), src := src, p := p } := fun l =>
    VersionCheck_of_error p src _ e (scanItems_first_malformed before l obj s e _ hb hann hbad)
  exact ⟨h1 after, fun after2 => (h1 after2).trans (h1 after).symm⟩

/-- C13, concrete check: `1.0.0+` (empty build metadata) is the first malformed value; the
later malformed value `not-a-version` and the later requirement `9.0.0` play no part. -/
theorem C13_first_malformed_decides_witness :
    (versionCheck.mk { handle := 0 } ⟨1, 0, 0, [], []⟩).VersionCheck exampleTarget
        { Items := [annotated "2.0.0", unannotated] ++ annotated "1.0.0+" ::
            [annotated "not-a-version", annotated "9.0.0"] } =
      { ok := false, err := some (.parse .buildEmpty), src := exampleTarget,
        p := versionCheck.mk { handle := 0 } ⟨1, 0, 0, [], []⟩ } ∧
    ∀ after2 : List Object,
      (versionCheck.mk { handle := 0 } ⟨1, 0, 0, [], []⟩).VersionCheck exampleTarget
          { Items := [annotated "2.0.0", unannotated] ++ annotated "1.0.0+" :: after2 } =
        (versionCheck.mk { handle := 0 } ⟨1, 0, 0, [], []⟩).VersionCheck exampleTarget
          { Items := [annotated "2.0.0", unannotated] ++ annotated "1.0.0+" ::
              [annotated "not-a-version", annotated "9.0.0"] } :=
  C13_first_malformed_decides (versionCheck.mk { handle := 0 } ⟨1, 0, 0, [], []⟩) exampleTarget
    [annotated "2.0.0", unannotated] [annotated "not-a-version", annotated "9.0.0"]
    (annotated "1.0.0+") "1.0.0+" .buildEmpty (by decide) rfl rfl

/-- C14: exact characterisation of the verdict: for every gate and every manifest whose
annotation values all parse, `VersionCheck` returns true if and only if the controller
version is at or above `0.0.0` and at or above every parsed annotation value; and the
required version that the loop computes is the maximum of `0.0.0` and the parsed values
(one of them, at or above each of them), so it is never below `0.0.0`. -/
theorem C14_verdict_characterisation (p : versionCheck) (src : DeclarativeObject)
    (objs : Objects)
    (hparse : ∀ s ∈ annotationValues objs.Items, (Parse s).toBool = true) :
    ((p.VersionCheck src objs).ok = true ↔
      (p.operatorVersion.GTE Version.zero = true ∧
        ∀ v ∈ parsedValues objs.Items, p.operatorVersion.GTE v = true)) ∧
    ∃ required,
      scanItems objs.Items Version.zero = .ok required ∧
      required ∈ Version.zero :: parsedValues objs.Items ∧
      (∀ v ∈ Version.zero :: parsedValues objs.Items, required.GTE v = true) ∧
      required.GTE Version.zero = true ∧
      ((p.VersionCheck src objs).ok = true ↔ p.operatorVersion.GTE required = true) := by
  have hall := all_parse_of_toBool objs.Items hparse
  obtain ⟨r, hr⟩ := scanItems_ok_of_all_parse objs.Items Version.zero hall
  obtain ⟨h1, h2, h3⟩ := scanItems_ok_max objs.Items Version.zero r hr
  refine ⟨?_, r, hr, ?_, ?_, h1, VersionCheck_ok_iff p src objs r hr⟩
  · rw [VersionCheck_ok_iff p src objs r hr]
    exact GTE_scanItems_iff objs.Items Version.zero r _ hr
  · rcases h3 with h3 | h3
    · rw [h3]; exact List.mem_cons_self _ _
    · exact List.mem_cons_of_mem _ h3
  · intro v hv
    rcases List.mem_cons.mp hv with hv | hv
    · rw [hv]; exact h1
    · exact h2 v hv

/-- C14, concrete check: the only annotation is `0.0.0-rc.1`, a pre-release of `0.0.0`;
the required version stays `0.0.0`, so the controller `0.0.0` passes. -/
theorem C14_verdict_characterisation_witness :
    scanItems [annotated "0.0.0-rc.1"] Version.zero = .ok Version.zero ∧
    ((versionCheck.mk { handle := 0 } Version.zero).VersionCheck exampleTarget
        { Items := [annotated "0.0.0-rc.1"] }).ok = true ∧
    (((versionCheck.mk { handle := 0 } Version.zero).VersionCheck exampleTarget
        { Items := [annotated "0.0.0-rc.1"] }).ok = true ↔
      (Version.zero.GTE Version.zero = true ∧
        ∀ v ∈ parsedValues [annotated "0.0.0-rc.1"], Version.zero.GTE v = true)) :=
  ⟨rfl, by decide,
    (C14_verdict_characterisation (versionCheck.mk { handle := 0 } Version.zero) exampleTarget
      { Items := [annotated "0.0.0-rc.1"] } (by decide)).1⟩

/-- C15: a parse failure is atomic with respect to the target: whenever `VersionCheck`
returns the parse error of a malformed annotation, it returns false, `SetCommonStatus` has
not been called and the target is as it was before the call, whatever the objects earlier
in the sequence required; and this is what happens whenever some annotation value does not
parse. -/
theorem C15_parse_failure_leaves_target (p : versionCheck) (src : DeclarativeObject)
    (objs : Objects) :
    (∀ e, (p.VersionCheck src objs).err = some (.parse e) →
      (p.VersionCheck src objs).ok = false ∧
      (p.VersionCheck src objs).src = src ∧
      (p.VersionCheck src objs).src.setCommonStatusCalls = src.setCommonStatusCalls ∧
      (p.VersionCheck src objs).src.status = src.status) ∧
    ((∃ s ∈ annotationValues objs.Items, ∃ e, Parse s = .error e) →
      ∃ e, (p.VersionCheck src objs).err = some (.parse e)) := by
  constructor
  · intro e herr
    cases hscan : scanItems objs.Items Version.zero with
    | error e1 =>
      rw [VersionCheck_of_error p src objs e1 hscan]
      exact ⟨rfl, rfl, rfl, rfl⟩
    | ok r =>
      cases hg : p.operatorVersion.GTE r with
      | true =>
        rw [VersionCheck_of_pass p src objs r hscan hg] at herr
        cases herr
      | false =>
        cases hc : src.isCommonObject with
        | false =>
          rw [VersionCheck_of_notCommonObject p src objs r hscan hg hc] at herr
          cases herr
        | true =>
          rw [VersionCheck_of_tooOld p src objs r hscan hg hc] at herr
          cases herr
  · intro hex
    obtain ⟨e, he⟩ := (scanItems_error_iff objs.Items Version.zero).mpr hex
    exact ⟨e, by rw [VersionCheck_of_error p src objs e he]⟩

/-- C15, concrete check: the object before the malformed one requires `2.0.0`, above the
controller `1.0.0`; the call still leaves the target untouched. -/
theorem C15_parse_failure_leaves_target_witness :
    ((versionCheck.mk { handle := 0 } ⟨1, 0, 0, [], []⟩).VersionCheck exampleTarget
        { Items := [annotated "2.0.0", annotated "not-a-version"] }).ok = false ∧
    ((versionCheck.mk { handle := 0 } ⟨1, 0, 0, [], []⟩).VersionCheck exampleTarget
        { Items := [annotated "2.0.0", annotated "not-a-version"] }).src = exampleTarget ∧
    ((versionCheck.mk { handle := 0 } ⟨1, 0, 0, [], []⟩).VersionCheck exampleTarget
        { Items := [annotated "2.0.0", annotated "not-a-version"] }).src.setCommonStatusCalls =
      exampleTarget.setCommonStatusCalls ∧
    ((versionCheck.mk { handle := 0 } ⟨1, 0, 0, [], []⟩).VersionCheck exampleTarget
        { Items := [annotated "2.0.0", annotated "not-a-version"] }).src.status =
      exampleTarget.status :=
  (C15_parse_failure_leaves_target (versionCheck.mk { handle := 0 } ⟨1, 0, 0, [], []⟩)
    exampleTarget { Items := [annotated "2.0.0", annotated "not-a-version"] }).1
      .noMajorMinorPatch (by decide)

/-- C16: the verdict is monotone: (i) if a gate passes on a manifest, every gate whose
controller version is at or above that of the first passes on the same manifest; (ii) if a
gate passes on a manifest, it passes on every manifest obtained by removing objects from
it.  (A manifest on which a gate passes has annotation values that all parse.) -/
theorem C16_verdict_is_monotone (p p2 : versionCheck) (src : DeclarativeObject)
    (objs sub : Objects)
    (hpass : (p.VersionCheck src objs).ok = true) :
    (p2.operatorVersion.GTE p.operatorVersion = true →
      (p2.VersionCheck src objs).ok = true) ∧
    (sub.Items.Sublist objs.Items → (p.VersionCheck src sub).ok = true) ∧
    (∀ s ∈ annotationValues objs.Items, (Parse s).toBool = true) := by
  refine ⟨?_, ?_, ?_⟩
  · intro hge
    exact VersionCheck_ok_of_subset p p2 src src objs objs hge (fun _ h => h) (fun _ h => h) hpass
  · intro hsub
    have ha : (annotationValues sub.Items).Sublist (annotationValues objs.Items) :=
      List.Sublist.filterMap _ hsub
    have hv : (parsedValues sub.Items).Sublist (parsedValues objs.Items) :=
      List.Sublist.filterMap _ ha
    exact VersionCheck_ok_of_subset p p src src objs sub (Version.GTE_refl _)
      (fun _ h => ha.subset h) (fun _ h => hv.subset h) hpass
  · intro s hs
    obtain ⟨v, hv⟩ := ((VersionCheck_ok_iff_all p src objs).mp hpass).1 s hs
    rw [hv]
    rfl

/-- C16, concrete check: controller `2.3.1` passes on the requirements `1.0.0`, `2.3.1`,
`1.9.9`; so does controller `3.0.0-beta`, and so does `2.3.1` once the first and last
objects are removed. -/
theorem C16_verdict_is_monotone_witness :
    ((versionCheck.mk { handle := 0 } ⟨3, 0, 0, [⟨"beta", 0, false⟩], []⟩).VersionCheck
        exampleTarget
        { Items := [annotated "1.0.0", annotated "2.3.1", annotated "1.9.9"] }).ok = true ∧
    ((versionCheck.mk { handle := 0 } ⟨2, 3, 1, [], []⟩).VersionCheck exampleTarget
        { Items := [annotated "2.3.1"] }).ok = true :=
  ⟨(C16_verdict_is_monotone (versionCheck.mk { handle := 0 } ⟨2, 3, 1, [], []⟩)
      (versionCheck.mk { handle := 0 } ⟨3, 0, 0, [⟨"beta", 0, false⟩], []⟩) exampleTarget
      { Items := [annotated "1.0.0", annotated "2.3.1", annotated "1.9.9"] }
      { Items := [annotated "2.3.1"] } (by decide)).1 (by decide),
   (C16_verdict_is_monotone (versionCheck.mk { handle := 0 } ⟨2, 3, 1, [], []⟩)
      (versionCheck.mk { handle := 0 } ⟨3, 0, 0, [⟨"beta", 0, false⟩], []⟩) exampleTarget
      { Items := [annotated "1.0.0", annotated "2.3.1", annotated "1.9.9"] }
      { Items := [annotated "2.3.1"] } (by decide)).2.1 (by decide)⟩

end status
